import Mathlib

/-!
Verification development for the CampusVerify decision core: the trust score
engine (`trustEngine.js`), the anomaly detector and the token economy
(resolution engine), embedded shallowly over rational arithmetic.

Conventions of the embedding:
* JavaScript numbers are modelled as exact rationals (`ℚ`); `Math.round` is
  rounding half toward positive infinity (`jround`), `Math.floor` is `Int.floor`.
* `Math.exp` is kept abstract: score functions take a parameter
  `expf : ℚ → ℚ`; theorems that need it assume only the bounds of the real
  exponential on nonpositive arguments.
* Comparisons of the form `stdDev < c` with `stdDev = Math.sqrt variance`
  are encoded by the equivalent squared comparison (both sides nonnegative
  in every context in which the source evaluates them).
* `localStorage`-backed state (the single current user, rumors, evidence,
  verifications) is an explicit `St` record threaded through operations;
  the write-only activity log is not part of any claim and is omitted.
* A JS field access of the form `x || d` (default on falsy) is modelled by
  an explicit test against `0` / emptiness.
-/

/-- JavaScript `Math.round`: round half toward positive infinity. -/
def jround (q : ℚ) : ℤ := ⌊q + 1/2⌋

/-- Sum of a list of rationals, as `reduce((a,b) => a+b, 0)`. -/
def sumQ (l : List ℚ) : ℚ := l.foldl (· + ·) 0

/-- Arithmetic mean; the source only divides where the list is nonempty. -/
def meanQ (l : List ℚ) : ℚ := sumQ l / l.length

/-- Population variance, as in the source detectors. -/
def varianceQ (l : List ℚ) : ℚ := sumQ (l.map (fun x => (x - meanQ l) ^ 2)) / l.length

/-- `timestamps.sort((a,b) => a-b)`: ascending sort of rational timestamps. -/
def listSortQ (l : List ℚ) : List ℚ := l.insertionSort (· ≤ ·)

/-- Consecutive differences `ts[i] - ts[i-1]` of a timestamp list. -/
def intervalsOf : List ℚ → List ℚ
  | a :: b :: rest => (b - a) :: intervalsOf (b :: rest)
  | _ => []

/-- `ts[ts.length-1] - ts[0]` (used only on nonempty sorted lists). -/
def timeSpanOf (l : List ℚ) : ℚ := l.getLast?.getD 0 - (l.head?.getD 0)

/-- `Math.max(...l)` on a nonempty list. -/
def listMaxQ : List ℚ → ℚ
  | [] => 0
  | x :: xs => xs.foldl max x

/-- One entry of a user's capped behavioural action log. -/
structure ActionStamp where
  type : String
  time : ℚ
deriving DecidableEq, Repr

/-- The single locally stored user record (`Store.getUser`). -/
structure UserRec where
  id : String
  tokenBalance : ℚ
  stakedTokens : ℚ
  totalSubmissions : ℕ
  verifiedAccurate : ℕ
  verifiedFalse : ℕ
  reputationScore : ℚ
  lastActive : ℚ
  actionTimestamps : List ActionStamp
deriving DecidableEq, Repr

/-- A claim under evaluation (`createRumor`), with the fields the core mutates. -/
structure Rumor where
  id : String
  submitterId : String
  category : String
  stakeAmount : ℚ
  veracityScore : ℚ
  confidenceScore : ℚ
  temporalRelevance : ℚ
  sourceReliability : ℚ
  networkConsensus : ℚ
  finalTrustScore : ℚ
  supportCount : ℕ
  disputeCount : ℕ
  resolved : Bool
  createdAt : ℚ
  status : String
deriving DecidableEq, Repr

/-- An evidence item attached to a rumor (`createEvidence`). -/
structure EvidenceRec where
  rumorId : String
  type : String
  qualityScore : ℚ
  createdAt : ℚ
deriving DecidableEq, Repr

/-- A vote (`createVerification`). -/
structure Verification where
  rumorId : String
  verifierId : String
  voteType : String
  stakeAmount : ℚ
  voteWeight : ℚ
  createdAt : ℚ
deriving DecidableEq, Repr

/-- The localStorage-backed store state. -/
structure St where
  user : UserRec
  rumors : List Rumor
  evidence : List EvidenceRec
  verifications : List Verification
deriving DecidableEq, Repr

/-- Update the first list element satisfying `p` (the `findIndex` pattern of
`Store.updateRumor`); no change when nothing matches. -/
def updateFirst (p : α → Bool) (f : α → α) : List α → List α
  | [] => []
  | x :: xs => if p x then f x :: xs else x :: updateFirst p f xs

/-- `Store.getRumorById`. -/
def Store.getRumorById (s : St) (rid : String) : Option Rumor :=
  s.rumors.find? (fun r => r.id == rid)

/-- `Store.updateRumor`: merge updates into the first rumor with the id. -/
def Store.updateRumor (s : St) (rid : String) (f : Rumor → Rumor) : St :=
  { s with rumors := updateFirst (fun r => r.id == rid) f s.rumors }

/-- `Store.updateUser`: merge updates and stamp `lastActive` with now. -/
def Store.updateUser (now : ℚ) (f : UserRec → UserRec) (s : St) : St :=
  { s with user := { f s.user with lastActive := now } }

/-- `Store.setUser`: replace the user record verbatim. -/
def Store.setUser (u : UserRec) (s : St) : St := { s with user := u }

/-- `Store.getEvidenceForRumor`. -/
def Store.getEvidenceForRumor (s : St) (rid : String) : List EvidenceRec :=
  s.evidence.filter (fun e => e.rumorId == rid)

/-- `Store.getVerificationsForRumor`. -/
def Store.getVerificationsForRumor (s : St) (rid : String) : List Verification :=
  s.verifications.filter (fun v => v.rumorId == rid)

/-- `Store.hasUserVerified`. -/
def Store.hasUserVerified (s : St) (rid uid : String) : Bool :=
  s.verifications.any (fun v => v.rumorId == rid && v.verifierId == uid)

/-- `AnomalyDetector.detectTemporalClustering`: at least 5 votes whose sorted
timestamps all fall within a 2-minute (120000 ms) window. -/
def AnomalyDetector.detectTemporalClustering (verifs : List Verification) : Bool :=
  if verifs.length < 5 then false
  else
    let ts := listSortQ (verifs.map (·.createdAt))
    decide (timeSpanOf ts < 120000)

/-- `AnomalyDetector.detectUnnaturalPatterns`: coefficient of variation of the
inter-vote intervals below 0.1 with mean interval between 1 s and 10 min.
`stdDev / avg < 0.1` (with `cv = 0` when `avg ≤ 0`) is encoded as the
equivalent `100 * variance < avg ^ 2` under the `1000 < avg` guard. -/
def AnomalyDetector.detectUnnaturalPatterns (verifs : List Verification) : Bool :=
  if verifs.length < 5 then false
  else
    let ts := listSortQ (verifs.map (·.createdAt))
    let ivs := intervalsOf ts
    let avg := meanQ ivs
    decide (1000 < avg ∧ avg < 600000 ∧ 100 * varianceQ ivs < avg ^ 2)

/-- `AnomalyDetector.detectOneSidedVoting`: at least 5 votes, 100 % of them in
one direction. -/
def AnomalyDetector.detectOneSidedVoting (verifs : List Verification) : Bool :=
  if verifs.length < 5 then false
  else
    let supports := (verifs.filter (fun v => v.voteType == "support")).length
    let disputes := (verifs.filter (fun v => v.voteType == "dispute")).length
    decide ((max supports disputes : ℚ) / verifs.length = 1)

/-- `AnomalyDetector.calculateConsensusPenalty`: clustering 0.3, irregular
pattern 0.6, one-sided (with at least 5 votes) 0.2, capped at 0.8. -/
def AnomalyDetector.calculateConsensusPenalty (verifs : List Verification) : ℚ :=
  let p1 : ℚ := if AnomalyDetector.detectTemporalClustering verifs then 3/10 else 0
  let p2 : ℚ := if AnomalyDetector.detectUnnaturalPatterns verifs then 3/5 else 0
  let p3 : ℚ := if AnomalyDetector.detectOneSidedVoting verifs ∧ 5 ≤ verifs.length then 1/5 else 0
  min (4/5) (p1 + p2 + p3)

/-- Result of `AnomalyDetector.analyzeUserBehavior`; the early returns of the
source omit `flags` and `isBot`, whose reads are then `undefined` (falsy),
modelled as `[]` and `false`. -/
structure BotAnalysis where
  botScore : ℚ
  flags : List String
  isBot : Bool
deriving DecidableEq, Repr

/-- Hour-of-day of an epoch-milliseconds timestamp (`new Date(t).getHours()`,
modelled in UTC). -/
def hourOf (t : ℚ) : ℤ := (⌊t / 3600000⌋) % 24

/-- `AnomalyDetector.analyzeUserBehavior`: bot score of the locally stored
user from the capped action log; any other user id yields the zero result. -/
def AnomalyDetector.analyzeUserBehavior (user : UserRec) (userId : String) : BotAnalysis :=
  if user.id ≠ userId then ⟨0, [], false⟩
  else
    let stamps := user.actionTimestamps
    if stamps.length < 5 then ⟨0, [], false⟩
    else
      let times := listSortQ (stamps.map (·.time))
      let ivs := intervalsOf times
      -- `cv < 0.1` with `cv = 1` when `avg ≤ 0`, in squared encoding
      let regular := 3 < ivs.length ∧ 0 < meanQ ivs ∧ 100 * varianceQ ivs < (meanQ ivs) ^ 2
      let s1 : ℚ := if regular then 3/10 else 0
      let activeHours := ((stamps.map (fun a => hourOf a.time)).dedup).length
      let s2 : ℚ := if 20 < activeHours then 1/5 else 0
      let singleType := ((stamps.map (·.type)).dedup).length = 1 ∧ 10 < stamps.length
      let s3 : ℚ := if singleType then 1/5 else 0
      let raw := s1 + s2 + s3
      { botScore := min 1 raw
        flags := (if regular then ["regular_timing"] else [])
          ++ (if 20 < activeHours then ["24_7_activity"] else [])
          ++ (if singleType then ["single_action_type"] else [])
        isBot := decide ((7 : ℚ)/10 < raw) }

/-- `EVIDENCE_WEIGHTS[type] || 0.3`. -/
def evidenceWeightOf (t : String) : ℚ :=
  if t == "documentary" then 3/5
  else if t == "photo" then 1/2
  else if t == "video" then 1/2
  else if t == "statistical" then 2/5
  else if t == "testimony" then 3/10
  else 3/10

/-- `e.qualityScore || 0.8`. -/
def effQuality (e : EvidenceRec) : ℚ := if e.qualityScore = 0 then 4/5 else e.qualityScore

/-- `v.voteWeight || 1`. -/
def effVoteWeight (v : Verification) : ℚ := if v.voteWeight = 0 then 1 else v.voteWeight

/-- `TrustEngine.calculateVeracity`: evidence-based score with decay and
diminishing returns, falling back to the raw support ratio without evidence. -/
def TrustEngine.calculateVeracity (expf : ℚ → ℚ) (now : ℚ)
    (evidence : List EvidenceRec) (verifs : List Verification) : ℚ :=
  if evidence.isEmpty then
    let supports := (verifs.filter (fun v => v.voteType == "support")).length
    let disputes := (verifs.filter (fun v => v.voteType == "dispute")).length
    let total := supports + disputes
    if total = 0 then 1/2 else (supports : ℚ) / total
  else
    let evidenceScore := sumQ (evidence.enum.map (fun ie =>
      evidenceWeightOf ie.2.type * effQuality ie.2
        * expf (-(1/100) * ((now - ie.2.createdAt) / 3600000))
        * (1 / (1 + (ie.1 : ℚ) * (1/5)))))
    let disputes := (verifs.filter (fun v => v.voteType == "dispute")).length
    let rawScore := evidenceScore / (1 + (3/20) * (disputes : ℚ))
    min (rawScore / 2) 1

/-- `TrustEngine.calculateDiversityFactor`. -/
def TrustEngine.calculateDiversityFactor (verifs : List Verification) : ℚ :=
  if verifs.length < 2 then 1/2
  else
    let ts := listSortQ (verifs.map (·.createdAt))
    let timeSpan := timeSpanOf ts
    let avgInterval := timeSpan / ((ts.length : ℚ) - 1)
    if timeSpan < 120000 then 3/10
    else min 1 (avgInterval / 1800000)

/-- `TrustEngine.calculateConfidence`. -/
def TrustEngine.calculateConfidence (expf : ℚ → ℚ) (now : ℚ)
    (evidence : List EvidenceRec) (verifs : List Verification) : ℚ :=
  let baseConfidence : ℚ :=
    if !evidence.isEmpty then
      if evidence.any (fun e => e.type == "documentary") then 9/10
      else if evidence.any (fun e => e.type == "photo" || e.type == "video") then 7/10
      else 1/2
    else 1/2
  let sampleSizeFactor := 1 - expf (-(verifs.length : ℚ) / 10)
  let timeFactor : ℚ :=
    if verifs.length = 0 then 1/2
    else
      let latest := listMaxQ (verifs.map (·.createdAt))
      let hoursSince := (now - latest) / 3600000
      1/2 + (1/2) * expf (-hoursSince / 24)
  baseConfidence * sampleSizeFactor * timeFactor * TrustEngine.calculateDiversityFactor verifs

/-- `TrustEngine.calculateTemporalRelevance`: decay curve by category. -/
def TrustEngine.calculateTemporalRelevance (expf : ℚ → ℚ) (now : ℚ) (rumor : Rumor) : ℚ :=
  let h := (now - rumor.createdAt) / 3600000
  if rumor.category == "events" || rumor.category == "food" then expf (-(1/2) * h)
  else if rumor.category == "academic" || rumor.category == "facilities" then
    1 / (1 + (1/100) * h)
  else 1/2 + (1/2) * expf (-(1/10) * h)

/-- Submitter record consumed by `calculateSourceReliability`. -/
structure SubmitterInfo where
  id : String
  totalSubmissions : ℕ
  verifiedAccurate : ℕ
  verifiedFalse : ℕ
deriving DecidableEq, Repr

/-- `TrustEngine.getSubmitterInfo`: the hardcoded record for `system`,
otherwise the locally stored current user. -/
def TrustEngine.getSubmitterInfo (s : St) (submitterId : String) : SubmitterInfo :=
  if submitterId == "system" then ⟨"system", 10, 9, 0⟩
  else ⟨s.user.id, s.user.totalSubmissions, s.user.verifiedAccurate, s.user.verifiedFalse⟩

/-- `TrustEngine.calculateSourceReliability`. -/
def TrustEngine.calculateSourceReliability (submitter : Option SubmitterInfo) : ℚ :=
  match submitter with
  | none => 7/10
  | some sb =>
    if sb.id == "system" then 7/10
    else if sb.totalSubmissions = 0 then 1/2
    else
      let rawScore := ((sb.verifiedAccurate : ℚ) - 2 * (sb.verifiedFalse : ℚ)) / (sb.totalSubmissions : ℚ)
      max 0 (min 1 ((rawScore + 1) / 2))

/-- `TrustEngine.detectSuspiciousPatterns`: the trust engine's own suspicion
penalty (clustering 0.3, regular intervals 0.4, capped 0.8); `stdDev <
avgInterval * 0.1` is encoded squared under the `1000 < avgInterval` guard. -/
def TrustEngine.detectSuspiciousPatterns (verifs : List Verification) : ℚ :=
  if verifs.length < 3 then 0
  else
    let ts := listSortQ (verifs.map (·.createdAt))
    let timeSpan := timeSpanOf ts
    let p1 : ℚ := if timeSpan < 120000 ∧ 5 ≤ verifs.length then 3/10 else 0
    let p2 : ℚ :=
      if 5 ≤ verifs.length then
        let ivs := intervalsOf ts
        let avg := meanQ ivs
        if 100 * varianceQ ivs < avg ^ 2 ∧ 1000 < avg then 2/5 else 0
      else 0
    min (4/5) (p1 + p2)

/-- `TrustEngine.calculateNetworkConsensus`. -/
def TrustEngine.calculateNetworkConsensus (verifs : List Verification) : ℚ :=
  if verifs.length = 0 then 1/2
  else
    let supportWeight := sumQ ((verifs.filter (fun v => v.voteType == "support")).map effVoteWeight)
    let disputeWeight := sumQ ((verifs.filter (fun v => v.voteType == "dispute")).map effVoteWeight)
    let totalWeight := supportWeight + disputeWeight
    if totalWeight = 0 then 1/2
    else (supportWeight / totalWeight) * (1 - TrustEngine.detectSuspiciousPatterns verifs)

/-- `TrustEngine.calculateBoosts` (the rumor parameter is unused in source). -/
def TrustEngine.calculateBoosts (evidence : List EvidenceRec) : ℚ :=
  if evidence.any (fun e => e.type == "documentary") then 10 else 0

/-- `TrustEngine.calculatePenalties`. -/
def TrustEngine.calculatePenalties (verifs : List Verification) : ℚ :=
  let p1 : ℚ := if 1/2 < TrustEngine.detectSuspiciousPatterns verifs then 20 else 0
  let disputes := (verifs.filter (fun v => v.voteType == "dispute")).length
  let supports := (verifs.filter (fun v => v.voteType == "support")).length
  let p2 : ℚ := if (supports : ℚ) * (1/2) < (disputes : ℚ) ∧ 3 ≤ disputes then 15 else 0
  p1 + p2

/-- `TrustEngine.getStatus`. -/
def TrustEngine.getStatus (score : ℤ) : String :=
  if 70 ≤ score then "verified" else if score ≤ 30 then "disputed" else "unverified"

/-- Output of `TrustEngine.calculateTrustScore`. -/
structure TrustResult where
  final : ℤ
  V : ℚ
  C : ℚ
  T : ℚ
  S : ℚ
  N : ℚ
  status : String
deriving DecidableEq, Repr

/-- `TrustEngine.calculateTrustScore`: weighted combination, boost and
penalty, clamp to `[0, 100]` after rounding. -/
def TrustEngine.calculateTrustScore (expf : ℚ → ℚ) (now : ℚ) (s : St) (rumor : Rumor) :
    TrustResult :=
  let evidence := Store.getEvidenceForRumor s rumor.id
  let verifs := Store.getVerificationsForRumor s rumor.id
  let submitter := TrustEngine.getSubmitterInfo s rumor.submitterId
  let V := TrustEngine.calculateVeracity expf now evidence verifs
  let C := TrustEngine.calculateConfidence expf now evidence verifs
  let T := TrustEngine.calculateTemporalRelevance expf now rumor
  let S := TrustEngine.calculateSourceReliability (some submitter)
  let N := TrustEngine.calculateNetworkConsensus verifs
  let score := ((7/20) * V + (1/4) * C + (1/5) * T + (1/10) * S + (1/10) * N) * 100
    + TrustEngine.calculateBoosts evidence - TrustEngine.calculatePenalties verifs
  let final := max 0 (min 100 (jround score))
  ⟨final, V, C, T, S, N, TrustEngine.getStatus final⟩

/-- `TokenEconomy.calculateVoteWeight`: reputation multiplier, recency factor,
new-user penalty, clamped to `[0.3, 2.0]`. -/
def TokenEconomy.calculateVoteWeight (now : ℚ) (user : UserRec) : ℚ :=
  let w1 := 1 * (1/2 + user.reputationScore * (3/2))
  let hoursSinceActive := (now - user.lastActive) / 3600000
  let recencyFactor : ℚ :=
    if hoursSinceActive < 168 then 1 else if hoursSinceActive < 720 then 7/10 else 2/5
  let w2 := w1 * recencyFactor
  let w3 := if user.totalSubmissions + user.verifiedAccurate < 5 then w2 * (3/5) else w2
  max (3/10) (min 2 w3)

/-- `TokenEconomy.resolveSubmitterStake`: settle the submission stake, but
only when the submitter is the locally stored current user. -/
def TokenEconomy.resolveSubmitterStake (now : ℚ) (rumor : Rumor)
    (isVerified isRefuted : Bool) (s : St) : St :=
  if rumor.submitterId ≠ s.user.id then s
  else if isVerified then
    let returnAmount := rumor.stakeAmount + (jround (rumor.stakeAmount * (1/2)) : ℚ)
    Store.updateUser now (fun u =>
      { u with tokenBalance := min 500 (u.tokenBalance + returnAmount)
               stakedTokens := u.stakedTokens - rumor.stakeAmount
               verifiedAccurate := u.verifiedAccurate + 1
               reputationScore := min 1 (u.reputationScore + 1/50) }) s
  else if isRefuted then
    Store.updateUser now (fun u =>
      { u with stakedTokens := u.stakedTokens - rumor.stakeAmount
               verifiedFalse := u.verifiedFalse + 1
               reputationScore := max 0 (u.reputationScore - 1/20) }) s
  else
    let refund := (jround (rumor.stakeAmount * (1/2)) : ℚ)
    Store.updateUser now (fun u =>
      { u with tokenBalance := u.tokenBalance + refund
               stakedTokens := u.stakedTokens - rumor.stakeAmount }) s

/-- Winner classification inside `resolveRumor`. -/
def TokenEconomy.isCorrectVote (isVerified isRefuted : Bool) (v : Verification) : Bool :=
  (v.voteType == "support" && isVerified) || (v.voteType == "dispute" && isRefuted)

/-- One step of the winners loop of `resolveRumor`: pay the vote's return
(stake + 50 % bonus + rounded pool share) to the current user, capped at a
balance of 500; skip votes of other actors. -/
def TokenEconomy.applyWinner (now bonusPerWinner : ℚ) (acc : St) (v : Verification) : St :=
  if v.verifierId ≠ acc.user.id then acc
  else
    let returnAmount := v.stakeAmount + (jround (v.stakeAmount * (1/2)) : ℚ)
      + (jround bonusPerWinner : ℚ)
    Store.updateUser now (fun u =>
      { u with tokenBalance := min 500 (u.tokenBalance + returnAmount)
               stakedTokens := u.stakedTokens - v.stakeAmount
               verifiedAccurate := u.verifiedAccurate + 1 }) acc

/-- One step of the losers loop of `resolveRumor`: forfeit the current
user's stake (already deducted); skip votes of other actors. -/
def TokenEconomy.applyLoser (now : ℚ) (acc : St) (v : Verification) : St :=
  if v.verifierId ≠ acc.user.id then acc
  else
    Store.updateUser now (fun u =>
      { u with stakedTokens := u.stakedTokens - v.stakeAmount
               verifiedFalse := u.verifiedFalse + 1 }) acc

/-- One step of the disputed-outcome loop of `resolveRumor`: credit the
rounded 50 % refund (no cap); skip votes of other actors. -/
def TokenEconomy.applyDisputedRefund (now : ℚ) (acc : St) (v : Verification) : St :=
  if v.verifierId ≠ acc.user.id then acc
  else
    let refund := (jround (v.stakeAmount * (1/2)) : ℚ)
    Store.updateUser now (fun u =>
      { u with tokenBalance := u.tokenBalance + refund
               stakedTokens := u.stakedTokens - v.stakeAmount }) acc

/-- `TokenEconomy.resolveRumor`: classify the outcome from the stored final
trust score, partition the votes, pay the current user's winning votes
(stake + 50 % bonus + equal share of the losers' pool, balance capped at
500), forfeit the current user's losing stakes, or hand out 50 % refunds in
the disputed outcome; then settle the submitter stake and mark resolved. -/
def TokenEconomy.resolveRumor (now : ℚ) (rid : String) (s : St) : St :=
  match Store.getRumorById s rid with
  | none => s
  | some rumor =>
    if rumor.resolved then s
    else
      let normalizedScore := rumor.finalTrustScore / 100
      let isVerified := decide ((7 : ℚ)/10 ≤ normalizedScore)
      let isRefuted := decide (normalizedScore ≤ (3 : ℚ)/10)
      let isDisputed := !isVerified && !isRefuted
      let verifs := Store.getVerificationsForRumor s rid
      let winners := verifs.filter (TokenEconomy.isCorrectVote isVerified isRefuted)
      let losers :=
        if isDisputed then []
        else verifs.filter (fun v => !TokenEconomy.isCorrectVote isVerified isRefuted v)
      let loserPool := sumQ (losers.map (·.stakeAmount))
      let s1 :=
        if !isDisputed then
          let bonusPerWinner : ℚ :=
            if 0 < winners.length then loserPool / (winners.length : ℚ) else 0
          let sW := winners.foldl (TokenEconomy.applyWinner now bonusPerWinner) s
          losers.foldl (TokenEconomy.applyLoser now) sW
        else
          verifs.foldl (TokenEconomy.applyDisputedRefund now) s
      let s2 := TokenEconomy.resolveSubmitterStake now rumor isVerified isRefuted s1
      Store.updateRumor s2 rid (fun r => { r with resolved := true })

/-- `TokenEconomy.checkResolution`: eligibility is at least 5 votes and
(at least 24 h elapsed or strong consensus); eligible rumors are resolved. -/
def TokenEconomy.checkResolution (now : ℚ) (rid : String) (s : St) : St :=
  match Store.getRumorById s rid with
  | none => s
  | some rumor =>
    if rumor.resolved then s
    else
      let hoursSinceCreation := (now - rumor.createdAt) / 3600000
      let verifs := Store.getVerificationsForRumor s rid
      let hasEnoughVotes := 5 ≤ verifs.length
      let hasEnoughTime := (24 : ℚ) ≤ hoursSinceCreation
      let normalizedScore := rumor.finalTrustScore / 100
      let strongConsensus := (7 : ℚ)/10 ≤ normalizedScore ∨ normalizedScore ≤ (3 : ℚ)/10
      if (hasEnoughVotes ∧ hasEnoughTime) ∨ (hasEnoughVotes ∧ strongConsensus) then
        TokenEconomy.resolveRumor now rid s
      else s

/-- `TokenEconomy.updateRumorTrustScore`: persist a fresh trust result into
the rumor and run the resolution check. -/
def TokenEconomy.updateRumorTrustScore (expf : ℚ → ℚ) (now : ℚ) (rid : String) (s : St) : St :=
  match Store.getRumorById s rid with
  | none => s
  | some rumor =>
    let tr := TrustEngine.calculateTrustScore expf now s rumor
    let s1 := Store.updateRumor s rid (fun r =>
      { r with veracityScore := tr.V, confidenceScore := tr.C,
               temporalRelevance := tr.T, sourceReliability := tr.S,
               networkConsensus := tr.N, finalTrustScore := (tr.final : ℚ),
               status := tr.status })
    TokenEconomy.checkResolution now rid s1

/-- `TokenEconomy.recordUserAction`: append to the capped action log
(oldest entry evicted above 100). -/
def TokenEconomy.recordUserAction (now : ℚ) (userId actionType : String) (s : St) : St :=
  if s.user.id ≠ userId then s
  else
    let ts := s.user.actionTimestamps ++ [({ type := actionType, time := now } : ActionStamp)]
    let ts2 := if 100 < ts.length then ts.drop 1 else ts
    Store.updateUser now (fun u => { u with actionTimestamps := ts2 }) s

/-- Result classification of `TokenEconomy.verify`. -/
inductive VerifyOutcome
  | rumorNotFound
  | alreadyVerified
  | stakeOutOfRange
  | insufficientBalance
  | ok
deriving DecidableEq, Repr

/-- `TokenEconomy.verify`: duplicate-vote check, stake band `[2, 20]`,
balance check, stake deduction, vote creation with computed weight, count
update, action log, then trust recomputation (which may resolve). -/
def TokenEconomy.verify (expf : ℚ → ℚ) (now : ℚ) (rid voteType : String) (stakeAmount : ℚ)
    (evidenceDescr : Option String) (s : St) : St × VerifyOutcome :=
  match Store.getRumorById s rid with
  | none => (s, .rumorNotFound)
  | some _ =>
    if Store.hasUserVerified s rid s.user.id then (s, .alreadyVerified)
    else if stakeAmount < 2 ∨ 20 < stakeAmount then (s, .stakeOutOfRange)
    else if s.user.tokenBalance < stakeAmount then (s, .insufficientBalance)
    else
      let user := s.user
      let s1 := Store.updateUser now (fun u =>
        { u with tokenBalance := u.tokenBalance - stakeAmount
                 stakedTokens := u.stakedTokens + stakeAmount }) s
      let voteWeight := TokenEconomy.calculateVoteWeight now user
      let s2 :=
        match evidenceDescr with
        | none => s1
        | some _ => { s1 with evidence := s1.evidence ++ [({ rumorId := rid, type := "testimony", qualityScore := 4/5, createdAt := now } : EvidenceRec)] }
      let s3 := { s2 with verifications :=
        s2.verifications ++ [({ rumorId := rid, verifierId := user.id, voteType := voteType, stakeAmount := stakeAmount, voteWeight := voteWeight, createdAt := now } : Verification)] }
      let s4 := Store.updateRumor s3 rid (fun r =>
        if voteType == "support" then { r with supportCount := r.supportCount + 1 }
        else { r with disputeCount := r.disputeCount + 1 })
      let s5 := TokenEconomy.recordUserAction now user.id voteType s4
      (TokenEconomy.updateRumorTrustScore expf now rid s5, .ok)

/-- Outcome of the `VerifyRumor.submit` flow. -/
inductive SubmitOutcome
  | duplicate
  | blocked
  | proceeded (r : VerifyOutcome)
deriving DecidableEq, Repr

/-- The threshold ladder `VerifyRumor.submit` applies to a bot analysis. -/
def VerifyRumor.botDecision (b : BotAnalysis) : String :=
  if b.isBot || decide ((7 : ℚ)/10 ≤ b.botScore) then "block"
  else if (1 : ℚ)/2 ≤ b.botScore then "halve"
  else if (3 : ℚ)/10 ≤ b.botScore then "monitor"
  else "proceed"

/-- `VerifyRumor.submit` (local settlement path): duplicate check, actor-level
bot analysis, action-log append (last 100 kept), block at `isBot` or score
at least 0.7, stake halving (floor, minimum 1) at score at least 0.5, then
`TokenEconomy.verify` with the possibly reduced stake. -/
def VerifyRumor.submit (expf : ℚ → ℚ) (now : ℚ) (rid voteType : String) (stakeAmount : ℚ)
    (evidenceText : Option String) (s : St) : St × SubmitOutcome :=
  if Store.hasUserVerified s rid s.user.id then (s, .duplicate)
  else
    let botAnalysis := AnomalyDetector.analyzeUserBehavior s.user s.user.id
    let acts := s.user.actionTimestamps
      ++ [({ type := if voteType == "support" then "verify" else "dispute", time := now } : ActionStamp)]
    let acts2 := if 100 < acts.length then acts.drop (acts.length - 100) else acts
    let s1 := Store.setUser { s.user with actionTimestamps := acts2 } s
    if botAnalysis.isBot || decide ((7 : ℚ)/10 ≤ botAnalysis.botScore) then (s1, .blocked)
    else
      let stake2 :=
        if (1 : ℚ)/2 ≤ botAnalysis.botScore then max 1 ((⌊stakeAmount * (1/2)⌋ : ℤ) : ℚ)
        else stakeAmount
      let r := TokenEconomy.verify expf now rid voteType stake2 evidenceText s1
      (r.1, .proceeded r.2)

/-- The weighted support fraction `supportWeight / (supportWeight +
disputeWeight)` used by the N component. -/
def weightedSupportFraction (verifs : List Verification) : ℚ :=
  let supportWeight := sumQ ((verifs.filter (fun v => v.voteType == "support")).map effVoteWeight)
  let disputeWeight := sumQ ((verifs.filter (fun v => v.voteType == "dispute")).map effVoteWeight)
  supportWeight / (supportWeight + disputeWeight)

/-- Source-reliability formula as the specification words it:
`clamp01(((accurate - 2*inaccurate)/totalSubmissions + 1)/2)`, `0.5` at zero
prior submissions. -/
def specSourceReliability (total accurate inaccurate : ℕ) : ℚ :=
  if total = 0 then 1/2
  else max 0 (min 1 ((((accurate : ℚ) - 2 * (inaccurate : ℚ)) / (total : ℚ) + 1) / 2))

/-- Total stake committed to a rumor: the submission stake plus every
recorded vote's stake (each was deducted from its actor when cast). -/
def TokenEconomy.deductedTotal (s : St) (rid : String) : ℚ :=
  (match Store.getRumorById s rid with
   | none => 0
   | some r => r.stakeAmount)
  + sumQ ((Store.getVerificationsForRumor s rid).map (·.stakeAmount))

/-- The per-winner payout of a verified/refuted resolution: own stake, 50 %
bonus, and an equal rounded share of the losers' pool. -/
def TokenEconomy.winnerPayout (pool : ℚ) (winnerCount : ℕ) (stake : ℚ) : ℚ :=
  stake + (jround (stake * (1/2)) : ℚ)
    + (jround (if 0 < winnerCount then pool / (winnerCount : ℚ) else 0) : ℚ)

lemma sumQ_nil : sumQ [] = 0 := rfl

lemma foldl_add_shift (l : List ℚ) : ∀ a b : ℚ, l.foldl (· + ·) (a + b) = a + l.foldl (· + ·) b := by
  induction l with
  | nil => intro a b; rfl
  | cons x t ih =>
    intro a b
    show t.foldl (· + ·) (a + b + x) = a + t.foldl (· + ·) (b + x)
    rw [add_assoc, ih]

lemma sumQ_cons (x : ℚ) (l : List ℚ) : sumQ (x :: l) = x + sumQ l := by
  show l.foldl (· + ·) (0 + x) = x + sumQ l
  rw [zero_add]
  calc l.foldl (· + ·) x = l.foldl (· + ·) (x + 0) := by rw [add_zero]
    _ = x + l.foldl (· + ·) 0 := foldl_add_shift l x 0
    _ = x + sumQ l := rfl

lemma sumQ_nonneg (l : List ℚ) (h : ∀ x ∈ l, 0 ≤ x) : 0 ≤ sumQ l := by
  induction l with
  | nil => simp [sumQ_nil]
  | cons x t ih =>
    rw [sumQ_cons]
    have hx := h x (List.mem_cons_self x t)
    have ht := ih (fun y hy => h y (List.mem_cons_of_mem x hy))
    linarith

lemma sumQ_pos (l : List ℚ) (hne : l ≠ []) (h : ∀ x ∈ l, 0 < x) : 0 < sumQ l := by
  cases l with
  | nil => exact absurd rfl hne
  | cons x t =>
    rw [sumQ_cons]
    have hx := h x (List.mem_cons_self x t)
    have ht := sumQ_nonneg t (fun y hy => le_of_lt (h y (List.mem_cons_of_mem x hy)))
    linarith

lemma foldl_max_le (c : ℚ) : ∀ (l : List ℚ) (a : ℚ), a ≤ c → (∀ x ∈ l, x ≤ c) → l.foldl max a ≤ c := by
  intro l
  induction l with
  | nil => intro a ha _; exact ha
  | cons y u ih =>
    intro a ha h
    exact ih (max a y) (max_le ha (h y (List.mem_cons_self y u)))
      (fun z hz => h z (List.mem_cons_of_mem y hz))

lemma listMaxQ_le (c : ℚ) (l : List ℚ) (h : ∀ x ∈ l, x ≤ c) (hne : l ≠ []) : listMaxQ l ≤ c := by
  cases l with
  | nil => exact absurd rfl hne
  | cons x t =>
    exact foldl_max_le c t x (h x (List.mem_cons_self x t))
      (fun z hz => h z (List.mem_cons_of_mem x hz))

lemma intervalsOf_nonneg : ∀ (l : List ℚ), l.Sorted (· ≤ ·) → ∀ x ∈ intervalsOf l, 0 ≤ x := by
  intro l
  induction l with
  | nil => intro _ x hx; simp [intervalsOf] at hx
  | cons a t ih =>
    intro hs x hx
    cases t with
    | nil => simp [intervalsOf] at hx
    | cons b u =>
      rw [intervalsOf] at hx
      rcases List.mem_cons.mp hx with hx | hx
      · have hab : a ≤ b := (List.sorted_cons.mp hs).1 b (List.mem_cons_self b u)
        subst hx; linarith
      · exact ih (List.sorted_cons.mp hs).2 x hx

lemma head_le_getLast_of_sorted : ∀ (l : List ℚ), l.Sorted (· ≤ ·) →
    l.head?.getD 0 ≤ l.getLast?.getD 0 := by
  intro l
  induction l with
  | nil => intro _; simp
  | cons a t ih =>
    intro hs
    cases t with
    | nil => simp
    | cons b u =>
      have h1 : a ≤ b := (List.sorted_cons.mp hs).1 b (List.mem_cons_self b u)
      have h2 := ih (List.sorted_cons.mp hs).2
      have hgl : (a :: b :: u).getLast? = (b :: u).getLast? := by
        cases u <;> simp [List.getLast?]
      rw [hgl]
      simp only [List.head?, Option.getD] at h2 ⊢
      linarith

lemma timeSpanOf_nonneg (l : List ℚ) (h : l.Sorted (· ≤ ·)) : 0 ≤ timeSpanOf l := by
  have := head_le_getLast_of_sorted l h
  simp only [timeSpanOf]
  linarith

lemma listSortQ_sorted (l : List ℚ) : (listSortQ l).Sorted (· ≤ ·) :=
  List.sorted_insertionSort (· ≤ ·) l

lemma listSortQ_length (l : List ℚ) : (listSortQ l).length = l.length :=
  (List.perm_insertionSort (· ≤ ·) l).length_eq

lemma rumors_updateUser (now : ℚ) (f : UserRec → UserRec) (s : St) :
    (Store.updateUser now f s).rumors = s.rumors := rfl

lemma verifications_updateUser (now : ℚ) (f : UserRec → UserRec) (s : St) :
    (Store.updateUser now f s).verifications = s.verifications := rfl

lemma verifications_updateRumor (s : St) (rid : String) (f : Rumor → Rumor) :
    (Store.updateRumor s rid f).verifications = s.verifications := rfl

lemma user_updateRumor (s : St) (rid : String) (f : Rumor → Rumor) :
    (Store.updateRumor s rid f).user = s.user := rfl

lemma foldl_preserves_rumors (g : St → Verification → St)
    (h : ∀ acc v, (g acc v).rumors = acc.rumors) :
    ∀ (l : List Verification) (s : St), (l.foldl g s).rumors = s.rumors := by
  intro l
  induction l with
  | nil => intro s; rfl
  | cons v t ih => intro s; rw [List.foldl_cons, ih, h]

lemma foldl_preserves_verifications (g : St → Verification → St)
    (h : ∀ acc v, (g acc v).verifications = acc.verifications) :
    ∀ (l : List Verification) (s : St), (l.foldl g s).verifications = s.verifications := by
  intro l
  induction l with
  | nil => intro s; rfl
  | cons v t ih => intro s; rw [List.foldl_cons, ih, h]

lemma foldl_preserves_user_id (g : St → Verification → St)
    (h : ∀ acc v, (g acc v).user.id = acc.user.id) :
    ∀ (l : List Verification) (s : St), (l.foldl g s).user.id = s.user.id := by
  intro l
  induction l with
  | nil => intro s; rfl
  | cons v t ih => intro s; rw [List.foldl_cons, ih, h]

lemma applyWinner_proj (now b : ℚ) (acc : St) (v : Verification) :
    (TokenEconomy.applyWinner now b acc v).verifications = acc.verifications ∧
    (TokenEconomy.applyWinner now b acc v).rumors = acc.rumors ∧
    (TokenEconomy.applyWinner now b acc v).user.id = acc.user.id := by
  unfold TokenEconomy.applyWinner
  split <;> exact ⟨rfl, rfl, rfl⟩

lemma applyLoser_proj (now : ℚ) (acc : St) (v : Verification) :
    (TokenEconomy.applyLoser now acc v).verifications = acc.verifications ∧
    (TokenEconomy.applyLoser now acc v).rumors = acc.rumors ∧
    (TokenEconomy.applyLoser now acc v).user.id = acc.user.id := by
  unfold TokenEconomy.applyLoser
  split <;> exact ⟨rfl, rfl, rfl⟩

lemma applyDisputedRefund_proj (now : ℚ) (acc : St) (v : Verification) :
    (TokenEconomy.applyDisputedRefund now acc v).verifications = acc.verifications ∧
    (TokenEconomy.applyDisputedRefund now acc v).rumors = acc.rumors ∧
    (TokenEconomy.applyDisputedRefund now acc v).user.id = acc.user.id := by
  unfold TokenEconomy.applyDisputedRefund
  split <;> exact ⟨rfl, rfl, rfl⟩

lemma verifications_resolveSubmitterStake (now : ℚ) (rumor : Rumor)
    (isVerified isRefuted : Bool) (s : St) :
    (TokenEconomy.resolveSubmitterStake now rumor isVerified isRefuted s).verifications
      = s.verifications := by
  unfold TokenEconomy.resolveSubmitterStake
  split <;> [rfl; split <;> [rfl; split <;> rfl]]

lemma rumors_resolveSubmitterStake (now : ℚ) (rumor : Rumor)
    (isVerified isRefuted : Bool) (s : St) :
    (TokenEconomy.resolveSubmitterStake now rumor isVerified isRefuted s).rumors
      = s.rumors := by
  unfold TokenEconomy.resolveSubmitterStake
  split <;> [rfl; split <;> [rfl; split <;> rfl]]

lemma user_id_resolveSubmitterStake (now : ℚ) (rumor : Rumor)
    (isVerified isRefuted : Bool) (s : St) :
    (TokenEconomy.resolveSubmitterStake now rumor isVerified isRefuted s).user.id
      = s.user.id := by
  unfold TokenEconomy.resolveSubmitterStake
  split <;> [rfl; split <;> [rfl; split <;> rfl]]

lemma verifications_resolveRumor (now : ℚ) (rid : String) (s : St) :
    (TokenEconomy.resolveRumor now rid s).verifications = s.verifications := by
  unfold TokenEconomy.resolveRumor
  cases h : Store.getRumorById s rid with
  | none => rfl
  | some rumor =>
    by_cases hres : rumor.resolved
    · simp [hres]
    · simp only [hres, Bool.false_eq_true, if_false]
      rw [verifications_updateRumor, verifications_resolveSubmitterStake]
      split
      · rw [foldl_preserves_verifications _ (fun acc v => (applyLoser_proj _ acc v).1) _
          (List.foldl _ _ _)]
        rw [foldl_preserves_verifications _ (fun acc v => (applyWinner_proj _ _ acc v).1)]
      · rw [foldl_preserves_verifications _ (fun acc v => (applyDisputedRefund_proj _ acc v).1)]

lemma getRumorById_of_rumors_eq (s s' : St) (rid : String) (h : s'.rumors = s.rumors) :
    Store.getRumorById s' rid = Store.getRumorById s rid := by
  unfold Store.getRumorById
  rw [h]

lemma find?_updateFirst (rid : String) (f : Rumor → Rumor) (hf : ∀ r, (f r).id = r.id) :
    ∀ (l : List Rumor),
      (updateFirst (fun r => r.id == rid) f l).find? (fun r => r.id == rid)
        = (l.find? (fun r => r.id == rid)).map f := by
  intro l
  induction l with
  | nil => rfl
  | cons x xs ih =>
    by_cases hx : x.id = rid
    · have hxb : (x.id == rid) = true := beq_iff_eq.mpr hx
      have hfxb : ((f x).id == rid) = true := beq_iff_eq.mpr (by rw [hf x]; exact hx)
      rw [updateFirst, if_pos hxb]
      simp [List.find?, hxb, hfxb]
    · have hxb : (x.id == rid) = false := beq_eq_false_iff_ne.mpr hx
      rw [updateFirst]
      simp only [hxb, Bool.false_eq_true, if_false]
      simp only [List.find?, hxb, cond_false]
      exact ih

lemma getRumorById_updateRumor (s : St) (rid : String) (f : Rumor → Rumor)
    (hf : ∀ r, (f r).id = r.id) :
    Store.getRumorById (Store.updateRumor s rid f) rid
      = (Store.getRumorById s rid).map f := by
  unfold Store.getRumorById Store.updateRumor
  exact find?_updateFirst rid f hf s.rumors

lemma resolveRumor_not_found (now : ℚ) (rid : String) (s : St)
    (h : Store.getRumorById s rid = none) : TokenEconomy.resolveRumor now rid s = s := by
  unfold TokenEconomy.resolveRumor
  rw [h]

lemma resolveRumor_already_resolved (now : ℚ) (rid : String) (s : St) (r : Rumor)
    (h : Store.getRumorById s rid = some r) (hres : r.resolved = true) :
    TokenEconomy.resolveRumor now rid s = s := by
  unfold TokenEconomy.resolveRumor
  rw [h]
  simp [hres]

lemma rumors_resolveRumor_settlement (now : ℚ) (rid : String) (s : St) (r : Rumor)
    (h : Store.getRumorById s rid = some r) (hres : r.resolved = false) :
    ∃ s2 : St, TokenEconomy.resolveRumor now rid s
        = Store.updateRumor s2 rid (fun x => { x with resolved := true })
      ∧ s2.rumors = s.rumors := by
  unfold TokenEconomy.resolveRumor
  rw [h]
  simp only [hres, Bool.false_eq_true, if_false]
  refine ⟨_, rfl, ?_⟩
  rw [rumors_resolveSubmitterStake]
  split
  · rw [foldl_preserves_rumors _ (fun acc v => (applyLoser_proj _ acc v).2.1) _
      (List.foldl _ _ _)]
    rw [foldl_preserves_rumors _ (fun acc v => (applyWinner_proj _ _ acc v).2.1)]
  · rw [foldl_preserves_rumors _ (fun acc v => (applyDisputedRefund_proj _ acc v).2.1)]

lemma resolved_after_resolveRumor (now : ℚ) (rid : String) (s : St) (r : Rumor)
    (h : Store.getRumorById s rid = some r) :
    ∃ r', Store.getRumorById (TokenEconomy.resolveRumor now rid s) rid = some r'
      ∧ r'.resolved = true := by
  by_cases hres : r.resolved
  · exact ⟨r, by rw [resolveRumor_already_resolved now rid s r h hres]; exact h, hres⟩
  · obtain ⟨s2, heq, hr⟩ := rumors_resolveRumor_settlement now rid s r h
      (Bool.not_eq_true _ ▸ hres)
    refine ⟨{ r with resolved := true }, ?_, rfl⟩
    rw [heq, getRumorById_updateRumor s2 rid (fun x => { x with resolved := true })
      (fun x => rfl)]
    have hlook : Store.getRumorById s2 rid = some r := by
      rw [getRumorById_of_rumors_eq s s2 rid hr]
      exact h
    rw [hlook]
    rfl

/-- Claim C3: resolution is idempotent: resolving an already-resolved claim is
a no-op on the whole state (balances, staked totals, accuracy counters,
reputation and every claim field included), and hence a second invocation of
`resolveRumor` — at any later time — leaves the state of the first
invocation unchanged; the `resolved` flag can only transition false to true
once. -/
theorem resolveRumor_idempotent :
    (∀ (now now2 : ℚ) (rid : String) (s : St),
      TokenEconomy.resolveRumor now2 rid (TokenEconomy.resolveRumor now rid s)
        = TokenEconomy.resolveRumor now rid s) ∧
    (∀ (now : ℚ) (rid : String) (s : St) (r : Rumor),
      Store.getRumorById s rid = some r → r.resolved = true →
      TokenEconomy.resolveRumor now rid s = s) := by
  constructor
  · intro now now2 rid s
    cases h : Store.getRumorById s rid with
    | none =>
      rw [resolveRumor_not_found now rid s h, resolveRumor_not_found now2 rid s h]
    | some r =>
      obtain ⟨r', h', hres'⟩ := resolved_after_resolveRumor now rid s r h
      exact resolveRumor_already_resolved now2 rid _ r' h' hres'
  · exact fun now rid s r h hres => resolveRumor_already_resolved now rid s r h hres

/-- A state holding one already-resolved rumor, used to witness claim C3. -/
def c3Rumor : Rumor :=
  { id := "r1", submitterId := "u1", category := "events", stakeAmount := 10,
    veracityScore := 1/2, confidenceScore := 3/10, temporalRelevance := 1,
    sourceReliability := 1/2, networkConsensus := 1/2, finalTrustScore := 80,
    supportCount := 5, disputeCount := 0, resolved := true, createdAt := 0,
    status := "verified" }

/-- Witness state for claim C3. -/
def c3St : St :=
  { user :=
      { id := "u1", tokenBalance := 100, stakedTokens := 10, totalSubmissions := 1,
        verifiedAccurate := 0, verifiedFalse := 0, reputationScore := 1/2,
        lastActive := 0, actionTimestamps := [] },
    rumors := [c3Rumor], evidence := [], verifications := [] }

/-- Witness for claim C3: re-resolving the concrete resolved rumor changes
nothing. -/
theorem resolveRumor_idempotent_witness :
    TokenEconomy.resolveRumor 5000 "r1" c3St = c3St ∧
    TokenEconomy.resolveRumor 7000 "r1" (TokenEconomy.resolveRumor 5000 "r1" c3St)
      = TokenEconomy.resolveRumor 5000 "r1" c3St :=
  ⟨resolveRumor_idempotent.2 5000 "r1" c3St c3Rumor rfl rfl,
   resolveRumor_idempotent.1 5000 7000 "r1" c3St⟩

/-- Claim C6: for an existing unresolved claim, the resolution check marks it
resolved exactly when it has at least 5 votes and (at least 24 hours have
elapsed since creation, or the normalized stored trust score is at least 0.7
or at most 0.3). -/
theorem checkResolution_resolves_iff (now : ℚ) (rid : String) (s : St) (r : Rumor)
    (h : Store.getRumorById s rid = some r) (hres : r.resolved = false) :
    ((∃ r', Store.getRumorById (TokenEconomy.checkResolution now rid s) rid = some r'
        ∧ r'.resolved = true)
      ↔ (5 ≤ (Store.getVerificationsForRumor s rid).length ∧
          ((24 : ℚ) ≤ (now - r.createdAt) / 3600000
            ∨ (7 : ℚ)/10 ≤ r.finalTrustScore / 100
            ∨ r.finalTrustScore / 100 ≤ (3 : ℚ)/10))) := by
  unfold TokenEconomy.checkResolution
  rw [h]
  simp only [hres, Bool.false_eq_true, if_false]
  by_cases hc : (5 ≤ (Store.getVerificationsForRumor s rid).length ∧
      (24 : ℚ) ≤ (now - r.createdAt) / 3600000) ∨
      (5 ≤ (Store.getVerificationsForRumor s rid).length ∧
        ((7 : ℚ)/10 ≤ r.finalTrustScore / 100 ∨ r.finalTrustScore / 100 ≤ (3 : ℚ)/10))
  · rw [if_pos hc]
    constructor
    · intro _
      rcases hc with ⟨hv, ht⟩ | ⟨hv, hs'⟩
      · exact ⟨hv, Or.inl ht⟩
      · exact ⟨hv, Or.inr hs'⟩
    · intro _
      exact resolved_after_resolveRumor now rid s r h
  · rw [if_neg hc]
    constructor
    · rintro ⟨r', hr', hres'⟩
      rw [h] at hr'
      cases hr'
      rw [hres] at hres'
      exact absurd hres' (by simp)
    · rintro ⟨hv, ht | hs'⟩
      · exact absurd (Or.inl ⟨hv, ht⟩) hc
      · exact absurd (Or.inr ⟨hv, hs'⟩) hc

/-- Witness rumor for claim C6: 5 votes, 25 hours old, 70 % trust score. -/
def c6Rumor : Rumor :=
  { id := "r6", submitterId := "u1", category := "academic", stakeAmount := 10,
    veracityScore := 1/2, confidenceScore := 3/10, temporalRelevance := 1,
    sourceReliability := 1/2, networkConsensus := 1/2, finalTrustScore := 70,
    supportCount := 4, disputeCount := 1, resolved := false, createdAt := 0,
    status := "active" }

/-- One concrete C6 vote. -/
def c6Vote (uid : String) (vt : String) (t : ℚ) : Verification :=
  { rumorId := "r6", verifierId := uid, voteType := vt, stakeAmount := 2,
    voteWeight := 1, createdAt := t }

/-- Witness state for claim C6. -/
def c6St : St :=
  { user :=
      { id := "u1", tokenBalance := 100, stakedTokens := 0, totalSubmissions := 1,
        verifiedAccurate := 0, verifiedFalse := 0, reputationScore := 1/2,
        lastActive := 0, actionTimestamps := [] },
    rumors := [c6Rumor], evidence := [],
    verifications :=
      [c6Vote "a" "support" 1000000, c6Vote "b" "support" 200000000,
       c6Vote "c" "support" 40000000, c6Vote "d" "dispute" 60000000,
       c6Vote "e" "support" 80000000] }

/-- Witness for claim C6: with 5 votes after 25 hours at score 70 the check
resolves the claim. -/
theorem checkResolution_resolves_iff_witness :
    ∃ r', Store.getRumorById (TokenEconomy.checkResolution 90000000 "r6" c6St) "r6"
      = some r' ∧ r'.resolved = true :=
  (checkResolution_resolves_iff 90000000 "r6" c6St c6Rumor rfl rfl).mpr
    ⟨by decide, Or.inl (by norm_num [c6Rumor])⟩

/-- Claim C10: actor-level behaviour analysis returns bot score 0, no flags
and no bot verdict for any user id other than the locally stored current
user's, and likewise when the current user's action log has fewer than 5
entries; in both situations the submit flow's threshold ladder takes no
action against the vote. -/
theorem analyzeUserBehavior_zero_for_offtarget_or_short_log (u : UserRec) (uid : String) :
    (uid ≠ u.id →
      AnomalyDetector.analyzeUserBehavior u uid = ⟨0, [], false⟩ ∧
      VerifyRumor.botDecision (AnomalyDetector.analyzeUserBehavior u uid) = "proceed") ∧
    (u.actionTimestamps.length < 5 →
      AnomalyDetector.analyzeUserBehavior u uid = ⟨0, [], false⟩ ∧
      VerifyRumor.botDecision (AnomalyDetector.analyzeUserBehavior u uid) = "proceed") := by
  have hzero : VerifyRumor.botDecision ⟨0, [], false⟩ = "proceed" := by
    norm_num [VerifyRumor.botDecision]
  constructor
  · intro hne
    have h : AnomalyDetector.analyzeUserBehavior u uid = ⟨0, [], false⟩ := by
      unfold AnomalyDetector.analyzeUserBehavior
      rw [if_pos (Ne.symm hne)]
    exact ⟨h, by rw [h]; exact hzero⟩
  · intro hlen
    have h : AnomalyDetector.analyzeUserBehavior u uid = ⟨0, [], false⟩ := by
      unfold AnomalyDetector.analyzeUserBehavior
      by_cases hid : u.id ≠ uid
      · rw [if_pos hid]
      · rw [if_neg hid, if_pos hlen]
    exact ⟨h, by rw [h]; exact hzero⟩

/-- Witness user for claim C10: four logged actions. -/
def c10User : UserRec :=
  { id := "u1", tokenBalance := 100, stakedTokens := 0, totalSubmissions := 0,
    verifiedAccurate := 0, verifiedFalse := 0, reputationScore := 1/2, lastActive := 0,
    actionTimestamps :=
      [⟨"verify", 1000⟩, ⟨"verify", 2000⟩, ⟨"verify", 3000⟩, ⟨"verify", 4000⟩] }

/-- Witness for claim C10: a foreign user id and a short action log both get
the zero analysis and no enforcement. -/
theorem analyzeUserBehavior_zero_witness :
    (AnomalyDetector.analyzeUserBehavior c10User "someone-else" = ⟨0, [], false⟩ ∧
      VerifyRumor.botDecision (AnomalyDetector.analyzeUserBehavior c10User "someone-else")
        = "proceed") ∧
    (AnomalyDetector.analyzeUserBehavior c10User "u1" = ⟨0, [], false⟩ ∧
      VerifyRumor.botDecision (AnomalyDetector.analyzeUserBehavior c10User "u1")
        = "proceed") :=
  ⟨(analyzeUserBehavior_zero_for_offtarget_or_short_log c10User "someone-else").1
      (by decide),
   (analyzeUserBehavior_zero_for_offtarget_or_short_log c10User "u1").2 (by decide)⟩

/-- A trivial store state used in the claim C8 counterexample. -/
def c8St : St :=
  { user :=
      { id := "alice", tokenBalance := 100, stakedTokens := 0, totalSubmissions := 4,
        verifiedAccurate := 1, verifiedFalse := 2, reputationScore := 1/2,
        lastActive := 0, actionTimestamps := [] },
    rumors := [], evidence := [], verifications := [] }

/-- Counterexample to claim C8: for the `system` submitter the code returns
the flat 0.7, not the claimed accuracy-counter formula, which on the system
record (10 submissions, 9 accurate, 0 false) gives 0.95. -/
theorem sourceReliability_system_counterexample :
    TrustEngine.calculateSourceReliability (some (TrustEngine.getSubmitterInfo c8St "system"))
        = 7/10 ∧
    specSourceReliability (TrustEngine.getSubmitterInfo c8St "system").totalSubmissions
        (TrustEngine.getSubmitterInfo c8St "system").verifiedAccurate
        (TrustEngine.getSubmitterInfo c8St "system").verifiedFalse = 19/20 ∧
    TrustEngine.calculateSourceReliability (some (TrustEngine.getSubmitterInfo c8St "system"))
      ≠ specSourceReliability (TrustEngine.getSubmitterInfo c8St "system").totalSubmissions
        (TrustEngine.getSubmitterInfo c8St "system").verifiedAccurate
        (TrustEngine.getSubmitterInfo c8St "system").verifiedFalse := by
  have h1 : TrustEngine.getSubmitterInfo c8St "system" = ⟨"system", 10, 9, 0⟩ := rfl
  refine ⟨rfl, ?_, ?_⟩
  · rw [h1]
    norm_num [specSourceReliability]
  · rw [h1]
    show (7 : ℚ)/10 ≠ specSourceReliability 10 9 0
    norm_num [specSourceReliability]

/-- Amended claim C8: for a submitter id other than `system`, the submitter
record is always the locally stored current user's counters, and on any
record whose id is not `system` the S component equals the spec formula
(`0.5` at zero submissions, else `clamp01(((accurate - 2*inaccurate)/total + 1)/2)`). -/
theorem calculateSourceReliability_eq_spec (s : St) (sid : String) (sb : SubmitterInfo)
    (hsid : sid ≠ "system") (hid : sb.id ≠ "system") :
    TrustEngine.getSubmitterInfo s sid
        = ⟨s.user.id, s.user.totalSubmissions, s.user.verifiedAccurate, s.user.verifiedFalse⟩ ∧
    TrustEngine.calculateSourceReliability (some sb)
        = specSourceReliability sb.totalSubmissions sb.verifiedAccurate sb.verifiedFalse := by
  constructor
  · unfold TrustEngine.getSubmitterInfo
    rw [if_neg (by simpa using hsid)]
  · have hb : (sb.id == "system") = false := beq_eq_false_iff_ne.mpr hid
    simp only [TrustEngine.calculateSourceReliability, specSourceReliability, hb,
      Bool.false_eq_true, if_false]

/-- Witness for the amended claim C8, at a non-system submitter with 4
submissions, 1 accurate and 2 false. -/
theorem calculateSourceReliability_eq_spec_witness :
    TrustEngine.getSubmitterInfo c8St "alice" = ⟨"alice", 4, 1, 2⟩ ∧
    TrustEngine.calculateSourceReliability (some (⟨"alice", 4, 1, 2⟩ : SubmitterInfo))
      = specSourceReliability 4 1 2 :=
  calculateSourceReliability_eq_spec c8St "alice" ⟨"alice", 4, 1, 2⟩
    (by decide) (by decide)

/-- One vote of the claim C4 counterexample. -/
def c4Vote (uid : String) (t : ℚ) : Verification :=
  { rumorId := "r4", verifierId := uid, voteType := "support", stakeAmount := 2,
    voteWeight := 1, createdAt := t }

/-- Five all-support votes spread irregularly over many hours: one-sided but
neither clustered nor regular. -/
def c4Votes : List Verification :=
  [c4Vote "a" 0, c4Vote "b" 10000000, c4Vote "c" 30000000,
   c4Vote "d" 60000000, c4Vote "e" 100000000]

/-- Counterexample to claim C4: the N component's suspicion penalty is not
the anomaly detector's `consensusPenalty`: on five one-sided, unclustered,
irregular votes the detector's penalty is 0.2 while N applies no penalty at
all (N = 1, not the claimed 0.8). -/
theorem networkConsensus_penalty_counterexample :
    TrustEngine.calculateNetworkConsensus c4Votes = 1 ∧
    AnomalyDetector.calculateConsensusPenalty c4Votes = 1/5 ∧
    weightedSupportFraction c4Votes
        * (1 - AnomalyDetector.calculateConsensusPenalty c4Votes) = 4/5 ∧
    TrustEngine.calculateNetworkConsensus c4Votes
      ≠ weightedSupportFraction c4Votes
        * (1 - AnomalyDetector.calculateConsensusPenalty c4Votes) := by
  have hsort : listSortQ (c4Votes.map (·.createdAt))
      = [0, 10000000, 30000000, 60000000, 100000000] := by
    have hm : (c4Votes.map (·.createdAt)) = [0, 10000000, 30000000, 60000000, 100000000] := by
      simp [c4Votes, c4Vote]
    rw [listSortQ, hm]
    exact List.Sorted.insertionSort_eq (by norm_num [List.sorted_cons])
  have hsup : c4Votes.filter (fun v => v.voteType == "support") = c4Votes := by
    simp [c4Votes, c4Vote]
  have hdis : c4Votes.filter (fun v => v.voteType == "dispute") = [] := by
    simp [c4Votes, c4Vote]
  have hpen : TrustEngine.detectSuspiciousPatterns c4Votes = 0 := by
    rw [TrustEngine.detectSuspiciousPatterns]
    rw [if_neg (by simp [c4Votes])]
    rw [hsort]
    norm_num [timeSpanOf, intervalsOf, meanQ, varianceQ, sumQ, c4Votes]
  have hN : TrustEngine.calculateNetworkConsensus c4Votes = 1 := by
    rw [TrustEngine.calculateNetworkConsensus]
    rw [if_neg (by simp [c4Votes])]
    simp only [hsup, hdis, hpen]
    norm_num [sumQ, effVoteWeight, c4Votes, c4Vote]
  have hclu : AnomalyDetector.detectTemporalClustering c4Votes = false := by
    rw [AnomalyDetector.detectTemporalClustering]
    rw [if_neg (by simp [c4Votes])]
    rw [hsort]
    norm_num [timeSpanOf]
  have hpat : AnomalyDetector.detectUnnaturalPatterns c4Votes = false := by
    rw [AnomalyDetector.detectUnnaturalPatterns]
    rw [if_neg (by simp [c4Votes])]
    rw [hsort]
    norm_num [intervalsOf, meanQ, varianceQ, sumQ]
  have hone : AnomalyDetector.detectOneSidedVoting c4Votes = true := by
    rw [AnomalyDetector.detectOneSidedVoting]
    rw [if_neg (by simp [c4Votes])]
    simp only [hsup, hdis]
    norm_num [c4Votes]
  have hcp : AnomalyDetector.calculateConsensusPenalty c4Votes = 1/5 := by
    rw [AnomalyDetector.calculateConsensusPenalty, hclu, hpat, hone]
    norm_num [c4Votes]
  have hwsf : weightedSupportFraction c4Votes = 1 := by
    rw [weightedSupportFraction]
    simp only [hsup, hdis]
    norm_num [sumQ, effVoteWeight, c4Votes, c4Vote]
  refine ⟨hN, hcp, ?_, ?_⟩
  · rw [hwsf, hcp]; norm_num
  · rw [hN, hwsf, hcp]; norm_num

/-- Amended claim C4: the suspicion penalty applied inside N is the trust
engine's own `detectSuspiciousPatterns` (clustering 0.3 and interval
regularity 0.4, capped 0.8, no one-sided term), and for a nonempty,
well-typed vote list with nonnegative weights, N equals the weighted
support fraction times one minus that penalty. -/
theorem calculateNetworkConsensus_eq_fraction (verifs : List Verification)
    (hne : verifs ≠ [])
    (hty : ∀ v ∈ verifs, v.voteType = "support" ∨ v.voteType = "dispute")
    (hw : ∀ v ∈ verifs, 0 ≤ v.voteWeight) :
    TrustEngine.calculateNetworkConsensus verifs
      = weightedSupportFraction verifs
        * (1 - TrustEngine.detectSuspiciousPatterns verifs) := by
  have heff : ∀ v ∈ verifs, 0 < effVoteWeight v := by
    intro v hv
    unfold effVoteWeight
    split
    · norm_num
    · exact lt_of_le_of_ne (hw v hv) (Ne.symm (by assumption))
  have hS : 0 ≤ sumQ ((verifs.filter (fun v => v.voteType == "support")).map effVoteWeight) := by
    refine sumQ_nonneg _ ?_
    intro x hx
    obtain ⟨v, hv, rfl⟩ := List.mem_map.mp hx
    exact le_of_lt (heff v (List.mem_of_mem_filter hv))
  have hD : 0 ≤ sumQ ((verifs.filter (fun v => v.voteType == "dispute")).map effVoteWeight) := by
    refine sumQ_nonneg _ ?_
    intro x hx
    obtain ⟨v, hv, rfl⟩ := List.mem_map.mp hx
    exact le_of_lt (heff v (List.mem_of_mem_filter hv))
  have htot : 0 < sumQ ((verifs.filter (fun v => v.voteType == "support")).map effVoteWeight)
      + sumQ ((verifs.filter (fun v => v.voteType == "dispute")).map effVoteWeight) := by
    cases verifs with
    | nil => exact absurd rfl hne
    | cons v0 t =>
      rcases hty v0 (List.mem_cons_self v0 t) with h0 | h0
      · have hmem : v0 ∈ (v0 :: t).filter (fun v => v.voteType == "support") :=
          List.mem_filter.mpr ⟨List.mem_cons_self v0 t, beq_iff_eq.mpr h0⟩
        have hpos : 0 < sumQ (((v0 :: t).filter (fun v => v.voteType == "support")).map effVoteWeight) := by
          refine sumQ_pos _ (by simp [List.ne_nil_of_mem hmem]) ?_
          intro x hx
          obtain ⟨v, hv, rfl⟩ := List.mem_map.mp hx
          exact heff v (List.mem_of_mem_filter hv)
        linarith
      · have hmem : v0 ∈ (v0 :: t).filter (fun v => v.voteType == "dispute") :=
          List.mem_filter.mpr ⟨List.mem_cons_self v0 t, beq_iff_eq.mpr h0⟩
        have hpos : 0 < sumQ (((v0 :: t).filter (fun v => v.voteType == "dispute")).map effVoteWeight) := by
          refine sumQ_pos _ (by simp [List.ne_nil_of_mem hmem]) ?_
          intro x hx
          obtain ⟨v, hv, rfl⟩ := List.mem_map.mp hx
          exact heff v (List.mem_of_mem_filter hv)
        linarith
  rw [TrustEngine.calculateNetworkConsensus]
  rw [if_neg (by simpa [List.length_eq_zero] using hne)]
  simp only [weightedSupportFraction]
  rw [if_neg (ne_of_gt htot)]

/-- Witness votes for the amended claim C4. -/
def c4wVotes : List Verification :=
  [{ rumorId := "r4", verifierId := "a", voteType := "support", stakeAmount := 2,
     voteWeight := 1, createdAt := 0 },
   { rumorId := "r4", verifierId := "b", voteType := "dispute", stakeAmount := 3,
     voteWeight := 2, createdAt := 5000000 }]

/-- Witness for the amended claim C4 at a concrete two-vote list. -/
theorem calculateNetworkConsensus_eq_fraction_witness :
    TrustEngine.calculateNetworkConsensus c4wVotes
      = weightedSupportFraction c4wVotes
        * (1 - TrustEngine.detectSuspiciousPatterns c4wVotes) :=
  calculateNetworkConsensus_eq_fraction c4wVotes (by simp [c4wVotes])
    (by intro v hv; fin_cases hv <;> simp [c4wVotes])
    (by intro v hv; fin_cases hv <;> norm_num [c4wVotes])

/-- Claim C2: when the actor-level analysis reports `isBot` or a bot score of
at least 0.7, the submit flow rejects the vote outright: the token balance,
staked total, vote list and rumor list (hence the support/dispute counts)
are untouched and no successful vote outcome is produced. -/
theorem submit_blocked_for_bot (expf : ℚ → ℚ) (now : ℚ) (rid voteType : String)
    (stakeAmount : ℚ) (evidenceText : Option String) (s : St)
    (hb : (AnomalyDetector.analyzeUserBehavior s.user s.user.id).isBot = true ∨
      (7 : ℚ)/10 ≤ (AnomalyDetector.analyzeUserBehavior s.user s.user.id).botScore) :
    (VerifyRumor.submit expf now rid voteType stakeAmount evidenceText s).1.user.tokenBalance
        = s.user.tokenBalance ∧
    (VerifyRumor.submit expf now rid voteType stakeAmount evidenceText s).1.user.stakedTokens
        = s.user.stakedTokens ∧
    (VerifyRumor.submit expf now rid voteType stakeAmount evidenceText s).1.verifications
        = s.verifications ∧
    (VerifyRumor.submit expf now rid voteType stakeAmount evidenceText s).1.rumors
        = s.rumors ∧
    (VerifyRumor.submit expf now rid voteType stakeAmount evidenceText s).2
        ≠ SubmitOutcome.proceeded VerifyOutcome.ok := by
  rw [VerifyRumor.submit]
  by_cases hd : Store.hasUserVerified s rid s.user.id = true
  · simp [hd]
  · have hguard : ((AnomalyDetector.analyzeUserBehavior s.user s.user.id).isBot
        || decide ((7 : ℚ)/10 ≤ (AnomalyDetector.analyzeUserBehavior s.user s.user.id).botScore))
          = true := by
      rcases hb with hb | hb
      · rw [hb, Bool.true_or]
      · rw [decide_eq_true hb, Bool.or_true]
    simp [hd, hguard, Store.setUser]

/-- Witness user for claim C2: 21 logged actions of a single type at exactly
one-hour spacing — regular timing, activity in 21 distinct hours, and a
single action type: bot score 0.7. -/
def c2User : UserRec :=
  { id := "u1", tokenBalance := 100, stakedTokens := 0, totalSubmissions := 0,
    verifiedAccurate := 0, verifiedFalse := 0, reputationScore := 1/2, lastActive := 0,
    actionTimestamps := [⟨"verify", 0⟩, ⟨"verify", 3600000⟩, ⟨"verify", 7200000⟩, ⟨"verify", 10800000⟩, ⟨"verify", 14400000⟩, ⟨"verify", 18000000⟩, ⟨"verify", 21600000⟩, ⟨"verify", 25200000⟩, ⟨"verify", 28800000⟩, ⟨"verify", 32400000⟩, ⟨"verify", 36000000⟩, ⟨"verify", 39600000⟩, ⟨"verify", 43200000⟩, ⟨"verify", 46800000⟩, ⟨"verify", 50400000⟩, ⟨"verify", 54000000⟩, ⟨"verify", 57600000⟩, ⟨"verify", 61200000⟩, ⟨"verify", 64800000⟩, ⟨"verify", 68400000⟩, ⟨"verify", 72000000⟩] }

/-- The witness user's action times. -/
def c2Times : List ℚ := [0, 3600000, 7200000, 10800000, 14400000, 18000000, 21600000, 25200000, 28800000, 32400000, 36000000, 39600000, 43200000, 46800000, 50400000, 54000000, 57600000, 61200000, 64800000, 68400000, 72000000]

/-- Witness state for claim C2. -/
def c2Rumor : Rumor :=
  { id := "r2", submitterId := "z", category := "events", stakeAmount := 10,
    veracityScore := 1/2, confidenceScore := 3/10, temporalRelevance := 1,
    sourceReliability := 1/2, networkConsensus := 1/2, finalTrustScore := 50,
    supportCount := 0, disputeCount := 0, resolved := false, createdAt := 0,
    status := "active" }

/-- Witness state for claim C2 (continued). -/
def c2St : St :=
  { user := c2User, rumors := [c2Rumor], evidence := [], verifications := [] }

/-- The witness user's bot score evaluates to exactly 0.7. -/
lemma c2User_botScore :
    (AnomalyDetector.analyzeUserBehavior c2User "u1").botScore = 7/10 := by
  have hmap : c2User.actionTimestamps.map (fun a => a.time) = c2Times := by
    simp [c2User, c2Times]
  have hsorted : listSortQ (c2User.actionTimestamps.map (fun a => a.time)) = c2Times := by
    rw [listSortQ, hmap]
    exact List.Sorted.insertionSort_eq (by decide)
  have hiv : intervalsOf c2Times = [3600000, 3600000, 3600000, 3600000, 3600000, 3600000, 3600000, 3600000, 3600000, 3600000, 3600000, 3600000, 3600000, 3600000, 3600000, 3600000, 3600000, 3600000, 3600000, 3600000] := by
    norm_num [c2Times, intervalsOf]
  have hmean : meanQ [3600000, 3600000, 3600000, 3600000, 3600000, 3600000, 3600000, 3600000, 3600000, 3600000, 3600000, 3600000, 3600000, 3600000, 3600000, 3600000, 3600000, 3600000, 3600000, 3600000] = 3600000 := by
    norm_num [meanQ, sumQ]
  have hvar : varianceQ [3600000, 3600000, 3600000, 3600000, 3600000, 3600000, 3600000, 3600000, 3600000, 3600000, 3600000, 3600000, 3600000, 3600000, 3600000, 3600000, 3600000, 3600000, 3600000, 3600000] = 0 := by
    rw [varianceQ, hmean]
    norm_num [sumQ]
  have hhour : c2User.actionTimestamps.map (fun a => hourOf a.time) = [0, 1, 2, 3, 4, 5, 6, 7, 8, 9, 10, 11, 12, 13, 14, 15, 16, 17, 18, 19, 20] := by
    norm_num [c2User, hourOf]
  have hactive : ((c2User.actionTimestamps.map (fun a => hourOf a.time)).dedup).length = 21 := by
    rw [hhour]; decide
  have htypes : ((c2User.actionTimestamps.map (fun a => a.type)).dedup).length = 1 := by
    simp [c2User]
  have hlen : c2User.actionTimestamps.length = 21 := by simp [c2User]
  rw [AnomalyDetector.analyzeUserBehavior]
  rw [if_neg (by simp [c2User])]
  rw [if_neg (by simp [hlen])]
  simp only [hsorted, hiv, hmean, hvar, hactive, htypes, hlen]
  norm_num

/-- Witness for claim C2: the concrete bot-scored user's vote attempt leaves
balance, staked total, votes and rumors unchanged and is not accepted. -/
theorem submit_blocked_for_bot_witness :
    (VerifyRumor.submit (fun _ => 1) 76000000 "r2" "support" 5 none c2St).1.user.tokenBalance
        = c2St.user.tokenBalance ∧
    (VerifyRumor.submit (fun _ => 1) 76000000 "r2" "support" 5 none c2St).1.user.stakedTokens
        = c2St.user.stakedTokens ∧
    (VerifyRumor.submit (fun _ => 1) 76000000 "r2" "support" 5 none c2St).1.verifications
        = c2St.verifications ∧
    (VerifyRumor.submit (fun _ => 1) 76000000 "r2" "support" 5 none c2St).1.rumors
        = c2St.rumors ∧
    (VerifyRumor.submit (fun _ => 1) 76000000 "r2" "support" 5 none c2St).2
        ≠ SubmitOutcome.proceeded VerifyOutcome.ok :=
  by
  refine submit_blocked_for_bot (fun _ => 1) 76000000 "r2" "support" 5 none c2St (Or.inr ?_)
  rw [show c2St.user = c2User from rfl, show c2User.id = "u1" from rfl, c2User_botScore]


lemma verifications_checkResolution (now : ℚ) (rid : String) (s : St) :
    (TokenEconomy.checkResolution now rid s).verifications = s.verifications := by
  unfold TokenEconomy.checkResolution
  cases h : Store.getRumorById s rid with
  | none => rfl
  | some r =>
    by_cases hres : r.resolved
    · simp [hres]
    · simp only [hres, Bool.false_eq_true, if_false]
      split
      · exact verifications_resolveRumor now rid s
      · rfl

lemma verifications_updateRumorTrustScore (expf : ℚ → ℚ) (now : ℚ) (rid : String) (s : St) :
    (TokenEconomy.updateRumorTrustScore expf now rid s).verifications = s.verifications := by
  unfold TokenEconomy.updateRumorTrustScore
  cases h : Store.getRumorById s rid with
  | none => rfl
  | some r => rw [verifications_checkResolution, verifications_updateRumor]

lemma verifications_recordUserAction (now : ℚ) (userId actionType : String) (s : St) :
    (TokenEconomy.recordUserAction now userId actionType s).verifications
      = s.verifications := by
  unfold TokenEconomy.recordUserAction
  split
  · rfl
  · rfl

/-- Either a rejection leaves the vote list untouched, or exactly one new
vote for (rid, current user) is appended after a negative duplicate check. -/
lemma verifications_verify (expf : ℚ → ℚ) (now : ℚ) (rid voteType : String)
    (stakeAmount : ℚ) (evidenceDescr : Option String) (s : St) :
    (TokenEconomy.verify expf now rid voteType stakeAmount evidenceDescr s).1.verifications
        = s.verifications ∨
    (Store.hasUserVerified s rid s.user.id = false ∧
      ∃ w : Verification, w.rumorId = rid ∧ w.verifierId = s.user.id ∧
        (TokenEconomy.verify expf now rid voteType stakeAmount evidenceDescr s).1.verifications
          = s.verifications ++ [w]) := by
  unfold TokenEconomy.verify
  cases hg : Store.getRumorById s rid with
  | none => exact Or.inl (by rfl)
  | some r =>
    by_cases hd : Store.hasUserVerified s rid s.user.id = true
    · simp only [hd, if_true]
      exact Or.inl (by trivial)
    · rw [if_neg hd]
      by_cases hband : stakeAmount < 2 ∨ 20 < stakeAmount
      · rw [if_pos hband]
        exact Or.inl (by rfl)
      · rw [if_neg hband]
        by_cases hbal : s.user.tokenBalance < stakeAmount
        · rw [if_pos hbal]
          exact Or.inl (by rfl)
        · rw [if_neg hbal]
          refine Or.inr ⟨Bool.not_eq_true _ ▸ hd,
            ⟨{ rumorId := rid, verifierId := s.user.id, voteType := voteType,
               stakeAmount := stakeAmount,
               voteWeight := TokenEconomy.calculateVoteWeight now s.user,
               createdAt := now }, rfl, rfl, ?_⟩⟩
          rw [verifications_updateRumorTrustScore, verifications_recordUserAction,
            verifications_updateRumor]
          cases evidenceDescr <;> rfl

/-- At most one vote per (claim, actor) pair in a vote list. -/
def voteUnique (l : List Verification) : Prop :=
  ∀ rid uid : String,
    (l.filter (fun v => v.rumorId == rid && v.verifierId == uid)).length ≤ 1

/-- Claim C7: the duplicate-vote check runs before any stake movement: a
second vote attempt by an actor who already voted is rejected with the
state byte-for-byte unchanged, and casting votes preserves the at-most-one
vote per (claim, actor) invariant. -/
theorem verify_unique_vote (expf : ℚ → ℚ) (now : ℚ) (rid voteType : String)
    (stakeAmount : ℚ) (evidenceDescr : Option String) (s : St) :
    (Store.hasUserVerified s rid s.user.id = true →
      (TokenEconomy.verify expf now rid voteType stakeAmount evidenceDescr s).1 = s ∧
      (TokenEconomy.verify expf now rid voteType stakeAmount evidenceDescr s).2
        ≠ VerifyOutcome.ok) ∧
    (voteUnique s.verifications →
      voteUnique (TokenEconomy.verify expf now rid voteType stakeAmount
        evidenceDescr s).1.verifications) := by
  constructor
  · intro hd
    unfold TokenEconomy.verify
    cases hg : Store.getRumorById s rid with
    | none => exact ⟨by rfl, by simp⟩
    | some r =>
      simp only [hd, if_true]
      exact ⟨by trivial, by simp⟩
  · intro hu
    rcases verifications_verify expf now rid voteType stakeAmount evidenceDescr s with
      hsame | ⟨hdf, w, hwr, hwu, happ⟩
    · rw [hsame]
      exact hu
    · rw [happ]
      intro rid2 uid2
      rw [List.filter_append]
      by_cases hm : (w.rumorId == rid2 && w.verifierId == uid2) = true
      · have hr2 : rid2 = rid := by
          have h := beq_iff_eq.mp (Bool.and_elim_left hm)
          rw [hwr] at h
          exact h.symm
        have hu2 : uid2 = s.user.id := by
          have h := beq_iff_eq.mp (Bool.and_elim_right hm)
          rw [hwu] at h
          exact h.symm
        have hany := List.any_eq_false.mp
          (show s.verifications.any
            (fun v => v.rumorId == rid && v.verifierId == s.user.id) = false from hdf)
        have hnone : s.verifications.filter
            (fun v => v.rumorId == rid2 && v.verifierId == uid2) = [] := by
          rw [hr2, hu2]
          refine List.filter_eq_nil_iff.mpr ?_
          intro v hv
          exact fun hvc => (hany v hv) hvc
        rw [hnone]
        simp [hm]
      · rw [List.filter_singleton]
        simp only [hm, Bool.false_eq_true, cond_false, if_false, List.append_nil]
        exact hu rid2 uid2

/-- Witness state for claim C7: the current user has already voted on `r7`. -/
def c7St : St :=
  { user :=
      { id := "u1", tokenBalance := 50, stakedTokens := 3, totalSubmissions := 0,
        verifiedAccurate := 0, verifiedFalse := 0, reputationScore := 1/2,
        lastActive := 0, actionTimestamps := [] },
    rumors :=
      [ { id := "r7", submitterId := "z", category := "tech", stakeAmount := 10,
          veracityScore := 1/2, confidenceScore := 3/10, temporalRelevance := 1,
          sourceReliability := 1/2, networkConsensus := 1/2, finalTrustScore := 50,
          supportCount := 1, disputeCount := 0, resolved := false, createdAt := 0,
          status := "active" } ],
    evidence := [],
    verifications :=
      [ { rumorId := "r7", verifierId := "u1", voteType := "support",
          stakeAmount := 3, voteWeight := 1, createdAt := 100 } ] }

/-- Witness for claim C7: the concrete duplicate vote attempt is rejected
with no state change, and uniqueness is preserved. -/
theorem verify_unique_vote_witness :
    ((TokenEconomy.verify (fun _ => 1) 5000 "r7" "dispute" 4 none c7St).1 = c7St ∧
      (TokenEconomy.verify (fun _ => 1) 5000 "r7" "dispute" 4 none c7St).2
        ≠ VerifyOutcome.ok) ∧
    voteUnique (TokenEconomy.verify (fun _ => 1) 5000 "r7" "dispute" 4
      none c7St).1.verifications :=
  ⟨(verify_unique_vote (fun _ => 1) 5000 "r7" "dispute" 4 none c7St).1 (by decide),
   (verify_unique_vote (fun _ => 1) 5000 "r7" "dispute" 4 none c7St).2
     (fun rid uid => List.length_filter_le _ _)⟩

/-- The current user's winning vote in the claim C1 failing state. -/
def c1VoteU1 : Verification :=
  { rumorId := "r1", verifierId := "u1", voteType := "support", stakeAmount := 2,
    voteWeight := 1, createdAt := 1000 }

/-- Another actor's losing vote in the claim C1 failing state. -/
def c1VoteBob : Verification :=
  { rumorId := "r1", verifierId := "bob", voteType := "dispute", stakeAmount := 5,
    voteWeight := 1, createdAt := 2000 }

/-- The claim of the C1 failing state: submitted by the current user with a
10-token stake, stored trust score 80 (verified outcome). -/
def c1Rumor : Rumor :=
  { id := "r1", submitterId := "u1", category := "academic", stakeAmount := 10,
    veracityScore := 1/2, confidenceScore := 3/10, temporalRelevance := 1,
    sourceReliability := 1/2, networkConsensus := 1/2, finalTrustScore := 80,
    supportCount := 1, disputeCount := 1, resolved := false, createdAt := 0,
    status := "active" }

/-- The claim C1 failing state: current user near the balance cap. -/
def c1St : St :=
  { user :=
      { id := "u1", tokenBalance := 495, stakedTokens := 12, totalSubmissions := 1,
        verifiedAccurate := 0, verifiedFalse := 0, reputationScore := 1/2,
        lastActive := 0, actionTimestamps := [] },
    rumors := [c1Rumor], evidence := [], verifications := [c1VoteU1, c1VoteBob] }

/-- Claim C1 fails on the code: 17 tokens of stake were committed to the
claim (10 submission + 2 + 5 votes), yet resolving it credits the current
user only 5 tokens (the 8-token winner payout and 15-token submitter payout
are clipped by the 500 balance cap) and releases only the current user's 12
staked tokens; the other actor's 5-token losing stake is neither refunded,
redistributed in full, nor recorded as forfeited (the loser counter stays
0), so deducted and settled totals cannot balance. -/
theorem resolveRumor_conservation_failure :
    TokenEconomy.deductedTotal c1St "r1" = 17 ∧
    c1St.user.tokenBalance = 495 ∧
    c1St.user.stakedTokens = 12 ∧
    (TokenEconomy.resolveRumor 3000 "r1" c1St).user =
      { id := "u1", tokenBalance := 500, stakedTokens := 0, totalSubmissions := 1,
        verifiedAccurate := 2, verifiedFalse := 0, reputationScore := 13/25,
        lastActive := 3000, actionTimestamps := [] } ∧
    (TokenEconomy.resolveRumor 3000 "r1" c1St).verifications = c1St.verifications := by
  have hlook : Store.getRumorById c1St "r1" = some c1Rumor := rfl
  have hverifs : Store.getVerificationsForRumor c1St "r1" = [c1VoteU1, c1VoteBob] := rfl
  have hv : decide ((7:ℚ)/10 ≤ c1Rumor.finalTrustScore/100) = true :=
    decide_eq_true (by norm_num [c1Rumor])
  have hr : decide (c1Rumor.finalTrustScore/100 ≤ (3:ℚ)/10) = false :=
    decide_eq_false (by norm_num [c1Rumor])
  refine ⟨?_, by norm_num [c1St], by norm_num [c1St], ?_,
    verifications_resolveRumor 3000 "r1" c1St⟩
  · rw [TokenEconomy.deductedTotal, hlook, hverifs]
    norm_num [sumQ, c1Rumor, c1VoteU1, c1VoteBob]
  · rw [TokenEconomy.resolveRumor, hlook]
    simp only [show c1Rumor.resolved = false from rfl, Bool.false_eq_true, if_false,
      hverifs, hv, hr, TokenEconomy.isCorrectVote]
    simp [c1VoteU1, c1VoteBob, c1Rumor, c1St, sumQ, jround,
      Store.updateUser, Store.updateRumor, TokenEconomy.resolveSubmitterStake,
      TokenEconomy.isCorrectVote, TokenEconomy.applyWinner, TokenEconomy.applyLoser,
      TokenEconomy.applyDisputedRefund, List.filter_cons, List.foldl_cons,
      List.foldl_nil, updateFirst]
    norm_num

lemma applyWinner_skip (now b : ℚ) (acc : St) (v : Verification)
    (h : v.verifierId ≠ acc.user.id) : TokenEconomy.applyWinner now b acc v = acc := by
  unfold TokenEconomy.applyWinner
  rw [if_pos h]

lemma applyLoser_skip (now : ℚ) (acc : St) (v : Verification)
    (h : v.verifierId ≠ acc.user.id) : TokenEconomy.applyLoser now acc v = acc := by
  unfold TokenEconomy.applyLoser
  rw [if_pos h]

lemma applyDisputedRefund_skip (now : ℚ) (acc : St) (v : Verification)
    (h : v.verifierId ≠ acc.user.id) : TokenEconomy.applyDisputedRefund now acc v = acc := by
  unfold TokenEconomy.applyDisputedRefund
  rw [if_pos h]

/-- A settlement fold over votes none of which belongs to the current user
leaves the state unchanged. -/
lemma foldl_settle_none (g : St → Verification → St)
    (hskip : ∀ acc v, v.verifierId ≠ acc.user.id → g acc v = acc) :
    ∀ (l : List Verification) (s : St),
      l.filter (fun v => v.verifierId == s.user.id) = [] →
      l.foldl g s = s := by
  intro l
  induction l with
  | nil => intro s _; rfl
  | cons x t ih =>
    intro s hf
    rw [List.filter_cons] at hf
    by_cases hx : x.verifierId = s.user.id
    · simp [hx] at hf
    · have hxb : (x.verifierId == s.user.id) = false := beq_eq_false_iff_ne.mpr hx
      rw [hxb] at hf
      simp only [Bool.false_eq_true, if_false] at hf
      rw [List.foldl_cons, hskip s x hx]
      exact ih s hf

/-- A settlement fold over votes of which exactly one belongs to the current
user settles exactly that vote. -/
lemma foldl_settle_single (g : St → Verification → St)
    (hskip : ∀ acc v, v.verifierId ≠ acc.user.id → g acc v = acc)
    (hid : ∀ acc v, (g acc v).user.id = acc.user.id) :
    ∀ (l : List Verification) (s : St) (w : Verification),
      l.filter (fun v => v.verifierId == s.user.id) = [w] →
      l.foldl g s = g s w := by
  intro l
  induction l with
  | nil => intro s w hf; simp at hf
  | cons x t ih =>
    intro s w hf
    rw [List.filter_cons] at hf
    by_cases hx : x.verifierId = s.user.id
    · have hxb : (x.verifierId == s.user.id) = true := beq_iff_eq.mpr hx
      rw [hxb] at hf
      simp only [if_true] at hf
      have hxw : x = w := (List.cons_eq_cons.mp hf).1
      have htf : t.filter (fun v => v.verifierId == s.user.id) = [] :=
        (List.cons_eq_cons.mp hf).2
      subst hxw
      rw [List.foldl_cons]
      have htf2 : t.filter (fun v => v.verifierId == (g s x).user.id) = [] := by
        rw [hid s x]; exact htf
      exact foldl_settle_none g hskip t (g s x) htf2
    · have hxb : (x.verifierId == s.user.id) = false := beq_eq_false_iff_ne.mpr hx
      rw [hxb] at hf
      simp only [Bool.false_eq_true, if_false] at hf
      rw [List.foldl_cons, hskip s x hx]
      exact ih s w hf
/-- Claim C9: at resolution, a winning vote payout (stake + 50 % bonus +
rounded pool share) and a verified submitter payout (stake + 50 % bonus)
set the current user's balance to `min 500 (balance + payout)` — anything
above the 500 cap is silently discarded — while the disputed outcome's 50 %
refund is credited without the cap. -/
theorem resolution_cap_semantics (now : ℚ) (rid : String) (s : St) (r : Rumor)
    (h : Store.getRumorById s rid = some r) (hres : r.resolved = false) :
    (∀ v : Verification,
      (Store.getVerificationsForRumor s rid).filter
          (fun w => w.verifierId == s.user.id) = [v] →
      v.voteType = "support" →
      (7 : ℚ)/10 ≤ r.finalTrustScore / 100 →
      r.submitterId ≠ s.user.id →
      (TokenEconomy.resolveRumor now rid s).user.tokenBalance
        = min 500 (s.user.tokenBalance + TokenEconomy.winnerPayout
            (sumQ (((Store.getVerificationsForRumor s rid).filter
              (fun w => !TokenEconomy.isCorrectVote true false w)).map (·.stakeAmount)))
            ((Store.getVerificationsForRumor s rid).filter
              (TokenEconomy.isCorrectVote true false)).length
            v.stakeAmount)) ∧
    (∀ v : Verification,
      (Store.getVerificationsForRumor s rid).filter
          (fun w => w.verifierId == s.user.id) = [v] →
      (3 : ℚ)/10 < r.finalTrustScore / 100 →
      r.finalTrustScore / 100 < (7 : ℚ)/10 →
      r.submitterId ≠ s.user.id →
      (TokenEconomy.resolveRumor now rid s).user.tokenBalance
        = s.user.tokenBalance + (jround (v.stakeAmount * (1/2)) : ℚ)) ∧
    ((Store.getVerificationsForRumor s rid).filter
        (fun w => w.verifierId == s.user.id) = [] →
      (7 : ℚ)/10 ≤ r.finalTrustScore / 100 →
      r.submitterId = s.user.id →
      (TokenEconomy.resolveRumor now rid s).user.tokenBalance
        = min 500 (s.user.tokenBalance
            + (r.stakeAmount + (jround (r.stakeAmount * (1/2)) : ℚ)))) := by
  refine ⟨?_, ?_, ?_⟩
  · intro v hcu hvt h7 hsub
    have hv : decide ((7:ℚ)/10 ≤ r.finalTrustScore/100) = true := decide_eq_true h7
    have hrf : decide (r.finalTrustScore/100 ≤ (3:ℚ)/10) = false :=
      decide_eq_false (by intro hc; linarith)
    have hveq : v.verifierId = s.user.id := by
      have hm : v ∈ (Store.getVerificationsForRumor s rid).filter
          (fun w => w.verifierId == s.user.id) := by
        rw [hcu]; exact List.mem_cons_self v []
      exact beq_iff_eq.mp (List.mem_filter.mp hm).2
    have hpv : TokenEconomy.isCorrectVote true false v = true := by
      simp [TokenEconomy.isCorrectVote, hvt]
    have hcomm : ∀ (p : Verification → Bool),
        ((Store.getVerificationsForRumor s rid).filter p).filter
            (fun w => w.verifierId == s.user.id)
          = [v].filter p := by
      intro p
      rw [List.filter_filter, ← hcu, List.filter_filter]
      congr 1
      funext a
      rw [Bool.and_comm]
    have hwf : ((Store.getVerificationsForRumor s rid).filter
        (TokenEconomy.isCorrectVote true false)).filter
          (fun w => w.verifierId == s.user.id) = [v] := by
      rw [hcomm]
      simp [hpv]
    have hlf : ((Store.getVerificationsForRumor s rid).filter
        (fun w => !TokenEconomy.isCorrectVote true false w)).filter
          (fun w => w.verifierId == s.user.id) = [] := by
      rw [hcomm]
      simp [hpv]
    unfold TokenEconomy.resolveRumor
    rw [h]
    simp only [hres, Bool.false_eq_true, if_false, hv, hrf, Bool.not_true, Bool.not_false,
      Bool.false_and, Bool.and_false, if_true]
    rw [user_updateRumor]
    rw [foldl_settle_single (TokenEconomy.applyWinner now _) (applyWinner_skip now _)
      (fun acc w => (applyWinner_proj now _ acc w).2.2) _ s v hwf]
    rw [foldl_settle_none (TokenEconomy.applyLoser now) (applyLoser_skip now) _ _
      (by rw [(applyWinner_proj now _ s v).2.2]; exact hlf)]
    rw [TokenEconomy.resolveSubmitterStake,
      if_pos (by rw [(applyWinner_proj now _ s v).2.2]; exact hsub)]
    rw [TokenEconomy.applyWinner, if_neg (not_not_intro hveq), TokenEconomy.winnerPayout]
    rfl
  · intro v hcu h3 h7 hsub
    have hv : decide ((7:ℚ)/10 ≤ r.finalTrustScore/100) = false :=
      decide_eq_false (by intro hc; linarith)
    have hrf : decide (r.finalTrustScore/100 ≤ (3:ℚ)/10) = false :=
      decide_eq_false (by intro hc; linarith)
    have hveq : v.verifierId = s.user.id := by
      have hm : v ∈ (Store.getVerificationsForRumor s rid).filter
          (fun w => w.verifierId == s.user.id) := by
        rw [hcu]; exact List.mem_cons_self v []
      exact beq_iff_eq.mp (List.mem_filter.mp hm).2
    unfold TokenEconomy.resolveRumor
    rw [h]
    simp only [hres, Bool.false_eq_true, if_false, hv, hrf, Bool.not_true, Bool.not_false,
      Bool.and_self, Bool.true_and, if_false]
    rw [user_updateRumor]
    rw [foldl_settle_single (TokenEconomy.applyDisputedRefund now)
      (applyDisputedRefund_skip now)
      (fun acc w => (applyDisputedRefund_proj now acc w).2.2) _ s v hcu]
    rw [TokenEconomy.resolveSubmitterStake,
      if_pos (by rw [(applyDisputedRefund_proj now s v).2.2]; exact hsub)]
    rw [TokenEconomy.applyDisputedRefund, if_neg (not_not_intro hveq)]
    rfl
  · intro hcu0 h7 hsub
    have hv : decide ((7:ℚ)/10 ≤ r.finalTrustScore/100) = true := decide_eq_true h7
    have hrf : decide (r.finalTrustScore/100 ≤ (3:ℚ)/10) = false :=
      decide_eq_false (by intro hc; linarith)
    have hall : ∀ (p : Verification → Bool),
        ((Store.getVerificationsForRumor s rid).filter p).filter
          (fun w => w.verifierId == s.user.id) = [] := by
      intro p
      refine List.filter_eq_nil_iff.mpr ?_
      intro a ha
      exact List.filter_eq_nil_iff.mp hcu0 a (List.mem_of_mem_filter ha)
    unfold TokenEconomy.resolveRumor
    rw [h]
    simp only [hres, Bool.false_eq_true, if_false, hv, hrf, Bool.not_true, Bool.not_false,
      Bool.false_and, Bool.and_false, if_true]
    rw [user_updateRumor]
    rw [foldl_settle_none (TokenEconomy.applyWinner now _) (applyWinner_skip now _)
      _ s (hall _)]
    rw [foldl_settle_none (TokenEconomy.applyLoser now) (applyLoser_skip now) _ _ (hall _)]
    rw [TokenEconomy.resolveSubmitterStake, if_neg (not_not_intro hsub)]
    rw [if_pos rfl]
    rfl

/-- Witness rumor for the winner-cap part of claim C9. -/
def c9aRumor : Rumor :=
  { id := "r9", submitterId := "z", category := "tech", stakeAmount := 10,
    veracityScore := 1/2, confidenceScore := 3/10, temporalRelevance := 1,
    sourceReliability := 1/2, networkConsensus := 1/2, finalTrustScore := 80,
    supportCount := 1, disputeCount := 1, resolved := false, createdAt := 0,
    status := "active" }

/-- Witness state for the winner-cap part of claim C9. -/
def c9aSt : St :=
  { user :=
      { id := "u1", tokenBalance := 490, stakedTokens := 4, totalSubmissions := 1,
        verifiedAccurate := 0, verifiedFalse := 0, reputationScore := 1/2,
        lastActive := 0, actionTimestamps := [] },
    rumors := [c9aRumor], evidence := [],
    verifications :=
      [ { rumorId := "r9", verifierId := "u1", voteType := "support",
          stakeAmount := 4, voteWeight := 1, createdAt := 1000 },
        { rumorId := "r9", verifierId := "bob", voteType := "dispute",
          stakeAmount := 6, voteWeight := 1, createdAt := 2000 } ] }

/-- Witness rumor for the disputed-refund part of claim C9. -/
def c9bRumor : Rumor :=
  { c9aRumor with finalTrustScore := 50 }

/-- Witness state for the disputed-refund part of claim C9. -/
def c9bSt : St :=
  { c9aSt with rumors := [c9bRumor] }

/-- Witness rumor for the submitter-payout part of claim C9. -/
def c9cRumor : Rumor :=
  { c9aRumor with submitterId := "u1" }

/-- Witness state for the submitter-payout part of claim C9. -/
def c9cSt : St :=
  { user := c9aSt.user, rumors := [c9cRumor], evidence := [],
    verifications :=
      [ { rumorId := "r9", verifierId := "bob", voteType := "support",
          stakeAmount := 2, voteWeight := 1, createdAt := 1000 } ] }

/-- Witness for claim C9: the three payout shapes at concrete states. -/
theorem resolution_cap_semantics_witness :
    (TokenEconomy.resolveRumor 5000 "r9" c9aSt).user.tokenBalance
        = min 500 (c9aSt.user.tokenBalance + TokenEconomy.winnerPayout
            (sumQ (((Store.getVerificationsForRumor c9aSt "r9").filter
              (fun w => !TokenEconomy.isCorrectVote true false w)).map (·.stakeAmount)))
            ((Store.getVerificationsForRumor c9aSt "r9").filter
              (TokenEconomy.isCorrectVote true false)).length
            4) ∧
    (TokenEconomy.resolveRumor 5000 "r9" c9bSt).user.tokenBalance
        = c9bSt.user.tokenBalance + (jround ((4 : ℚ) * (1/2)) : ℚ) ∧
    (TokenEconomy.resolveRumor 5000 "r9" c9cSt).user.tokenBalance
        = min 500 (c9cSt.user.tokenBalance
            + (c9cRumor.stakeAmount + (jround (c9cRumor.stakeAmount * (1/2)) : ℚ))) :=
  ⟨(resolution_cap_semantics 5000 "r9" c9aSt c9aRumor rfl rfl).1
      { rumorId := "r9", verifierId := "u1", voteType := "support",
        stakeAmount := 4, voteWeight := 1, createdAt := 1000 }
      rfl rfl (by norm_num [c9aRumor]) (by decide),
   (resolution_cap_semantics 5000 "r9" c9bSt c9bRumor rfl rfl).2.1
      { rumorId := "r9", verifierId := "u1", voteType := "support",
        stakeAmount := 4, voteWeight := 1, createdAt := 1000 }
      rfl (by norm_num [c9bRumor, c9aRumor]) (by norm_num [c9bRumor, c9aRumor])
      (by decide),
   (resolution_cap_semantics 5000 "r9" c9cSt c9cRumor rfl rfl).2.2
      rfl (by norm_num [c9cRumor, c9aRumor]) rfl⟩

lemma snd_mem_of_mem_enumFrom {α : Type} :
    ∀ (l : List α) (n : ℕ) (p : ℕ × α), p ∈ l.enumFrom n → p.2 ∈ l := by
  intro l
  induction l with
  | nil => intro n p hp; simp [List.enumFrom] at hp
  | cons x t ih =>
    intro n p hp
    rw [List.enumFrom] at hp
    rcases List.mem_cons.mp hp with hp | hp
    · subst hp
      exact List.mem_cons_self x t
    · exact List.mem_cons_of_mem x (ih (n + 1) p hp)

lemma evidenceWeightOf_bounds (t : String) :
    0 ≤ evidenceWeightOf t ∧ evidenceWeightOf t ≤ 1 := by
  unfold evidenceWeightOf
  split_ifs <;> norm_num

lemma effQuality_nonneg (e : EvidenceRec) (h : 0 ≤ e.qualityScore) : 0 ≤ effQuality e := by
  unfold effQuality
  split
  · norm_num
  · exact h

lemma calculateVeracity_bounds (expf : ℚ → ℚ) (now : ℚ)
    (evidence : List EvidenceRec) (verifs : List Verification)
    (hexp : ∀ x : ℚ, x ≤ 0 → 0 ≤ expf x ∧ expf x ≤ 1)
    (hev : ∀ e ∈ evidence, 0 ≤ e.qualityScore ∧ e.createdAt ≤ now) :
    0 ≤ TrustEngine.calculateVeracity expf now evidence verifs ∧
    TrustEngine.calculateVeracity expf now evidence verifs ≤ 1 := by
  unfold TrustEngine.calculateVeracity
  dsimp only
  split
  · split
    · norm_num
    · rename_i htot
      have hpos : 0 < (verifs.filter (fun v => v.voteType == "support")).length
          + (verifs.filter (fun v => v.voteType == "dispute")).length :=
        Nat.pos_of_ne_zero htot
      have hposQ : (0:ℚ) < (((verifs.filter (fun v => v.voteType == "support")).length
          + (verifs.filter (fun v => v.voteType == "dispute")).length : ℕ) : ℚ) := by
        exact_mod_cast hpos
      constructor
      · positivity
      · rw [div_le_one hposQ]
        push_cast
        linarith [Nat.cast_nonneg (α := ℚ)
          ((verifs.filter (fun v => v.voteType == "dispute")).length)]
  · have hscore : 0 ≤ sumQ (evidence.enum.map (fun ie =>
        evidenceWeightOf ie.2.type * effQuality ie.2
          * expf (-(1/100) * ((now - ie.2.createdAt) / 3600000))
          * (1 / (1 + (ie.1 : ℚ) * (1/5))))) := by
      refine sumQ_nonneg _ ?_
      intro x hx
      obtain ⟨ie, hie, rfl⟩ := List.mem_map.mp hx
      have hmem : ie.2 ∈ evidence := snd_mem_of_mem_enumFrom evidence 0 ie hie
      have h1 := (evidenceWeightOf_bounds ie.2.type).1
      have h2 := effQuality_nonneg ie.2 (hev ie.2 hmem).1
      have h3 : 0 ≤ expf (-(1/100) * ((now - ie.2.createdAt) / 3600000)) := by
        refine (hexp _ ?_).1
        have hdt : 0 ≤ now - ie.2.createdAt := by linarith [(hev ie.2 hmem).2]
        have : 0 ≤ (now - ie.2.createdAt) / 3600000 := by positivity
        nlinarith
      have h4 : (0:ℚ) ≤ 1 / (1 + (ie.1 : ℚ) * (1/5)) := by positivity
      positivity
    have hden : (0:ℚ) < 1 + (3/20)
        * ((verifs.filter (fun v => v.voteType == "dispute")).length : ℚ) := by
      positivity
    constructor
    · have : 0 ≤ sumQ (evidence.enum.map (fun ie =>
          evidenceWeightOf ie.2.type * effQuality ie.2
            * expf (-(1/100) * ((now - ie.2.createdAt) / 3600000))
            * (1 / (1 + (ie.1 : ℚ) * (1/5)))))
          / (1 + (3/20) * ((verifs.filter (fun v => v.voteType == "dispute")).length : ℚ)) :=
        div_nonneg hscore (le_of_lt hden)
      exact le_min (by linarith) (by norm_num)
    · exact min_le_right _ _

lemma calculateDiversityFactor_bounds (verifs : List Verification) :
    0 ≤ TrustEngine.calculateDiversityFactor verifs ∧
    TrustEngine.calculateDiversityFactor verifs ≤ 1 := by
  unfold TrustEngine.calculateDiversityFactor
  dsimp only
  split
  · norm_num
  · rename_i hlen
    have hspan : 0 ≤ timeSpanOf (listSortQ (verifs.map (·.createdAt))) :=
      timeSpanOf_nonneg _ (listSortQ_sorted _)
    have hden : (0:ℚ) ≤ ((listSortQ (verifs.map (·.createdAt))).length : ℚ) - 1 := by
      rw [listSortQ_length, List.length_map]
      have h2 : 2 ≤ verifs.length := not_lt.mp hlen
      have : (2:ℚ) ≤ (verifs.length : ℚ) := by exact_mod_cast h2
      linarith
    split
    · norm_num
    · constructor
      · refine le_min (by norm_num) ?_
        positivity
      · exact min_le_left _ _

lemma prod4_bounds (a b c d : ℚ) (ha : 0 ≤ a ∧ a ≤ 1) (hb : 0 ≤ b ∧ b ≤ 1)
    (hc : 0 ≤ c ∧ c ≤ 1) (hd : 0 ≤ d ∧ d ≤ 1) :
    0 ≤ a * b * c * d ∧ a * b * c * d ≤ 1 := by
  constructor
  · exact mul_nonneg (mul_nonneg (mul_nonneg ha.1 hb.1) hc.1) hd.1
  · have h2 : a * b ≤ 1 := mul_le_one₀ ha.2 hb.1 hb.2
    have h3 : a * b * c ≤ 1 := mul_le_one₀ h2 hc.1 hc.2
    exact mul_le_one₀ h3 hd.1 hd.2

lemma calculateConfidence_bounds (expf : ℚ → ℚ) (now : ℚ)
    (evidence : List EvidenceRec) (verifs : List Verification)
    (hexp : ∀ x : ℚ, x ≤ 0 → 0 ≤ expf x ∧ expf x ≤ 1)
    (hvt : ∀ v ∈ verifs, v.createdAt ≤ now) :
    0 ≤ TrustEngine.calculateConfidence expf now evidence verifs ∧
    TrustEngine.calculateConfidence expf now evidence verifs ≤ 1 := by
  unfold TrustEngine.calculateConfidence
  dsimp only
  refine prod4_bounds _ _ _ _ ?_ ?_ ?_ (calculateDiversityFactor_bounds verifs)
  · constructor <;> (split_ifs <;> norm_num)
  · have hexp0 := hexp (-(verifs.length : ℚ) / 10)
      (by
        have h0 : (0:ℚ) ≤ (verifs.length : ℚ) / 10 := by positivity
        linarith)
    constructor <;> linarith [hexp0.1, hexp0.2]
  · split
    · norm_num
    · rename_i hlen
      have hne : verifs.map (·.createdAt) ≠ [] := by
        simpa [List.map_eq_nil_iff] using hlen
      have hmax : listMaxQ (verifs.map (·.createdAt)) ≤ now := by
        refine listMaxQ_le now _ ?_ hne
        intro x hx
        obtain ⟨v, hv, rfl⟩ := List.mem_map.mp hx
        exact hvt v hv
      have harg : -((now - listMaxQ (verifs.map (·.createdAt))) / 3600000) / 24 ≤ 0 := by
        have h0 : 0 ≤ (now - listMaxQ (verifs.map (·.createdAt))) / 3600000 := by
          have : 0 ≤ now - listMaxQ (verifs.map (·.createdAt)) := by linarith
          positivity
        linarith
      have he := hexp _ harg
      constructor <;> linarith [he.1, he.2]

lemma calculateTemporalRelevance_bounds (expf : ℚ → ℚ) (now : ℚ) (rumor : Rumor)
    (hexp : ∀ x : ℚ, x ≤ 0 → 0 ≤ expf x ∧ expf x ≤ 1)
    (hr : rumor.createdAt ≤ now) :
    0 ≤ TrustEngine.calculateTemporalRelevance expf now rumor ∧
    TrustEngine.calculateTemporalRelevance expf now rumor ≤ 1 := by
  unfold TrustEngine.calculateTemporalRelevance
  dsimp only
  have hh : 0 ≤ (now - rumor.createdAt) / 3600000 := by
    have : 0 ≤ now - rumor.createdAt := by linarith
    positivity
  split
  · have := hexp (-(1/2) * ((now - rumor.createdAt) / 3600000)) (by nlinarith)
    exact this
  · split
    · have hden : (1:ℚ) ≤ 1 + (1/100) * ((now - rumor.createdAt) / 3600000) := by nlinarith
      constructor
      · positivity
      · rw [div_le_one (by linarith)]
        linarith
    · have := hexp (-(1/10) * ((now - rumor.createdAt) / 3600000)) (by nlinarith)
      constructor <;> linarith [this.1, this.2]

lemma calculateSourceReliability_bounds (submitter : Option SubmitterInfo) :
    0 ≤ TrustEngine.calculateSourceReliability submitter ∧
    TrustEngine.calculateSourceReliability submitter ≤ 1 := by
  unfold TrustEngine.calculateSourceReliability
  match submitter with
  | none => norm_num
  | some sb =>
    dsimp only
    split_ifs
    · norm_num
    · norm_num
    · constructor
      · exact le_max_left 0 _
      · exact max_le (by norm_num) (min_le_left _ _)

lemma detectSuspiciousPatterns_bounds (verifs : List Verification) :
    0 ≤ TrustEngine.detectSuspiciousPatterns verifs ∧
    TrustEngine.detectSuspiciousPatterns verifs ≤ 4/5 := by
  unfold TrustEngine.detectSuspiciousPatterns
  dsimp only
  split
  · norm_num
  · constructor
    · refine le_min (by norm_num) ?_
      split_ifs <;> norm_num
    · exact min_le_left _ _

lemma effVoteWeight_nonneg (v : Verification) (h : 0 ≤ v.voteWeight) :
    0 ≤ effVoteWeight v := by
  unfold effVoteWeight
  split
  · norm_num
  · exact h

lemma calculateNetworkConsensus_bounds (verifs : List Verification)
    (hw : ∀ v ∈ verifs, 0 ≤ v.voteWeight) :
    0 ≤ TrustEngine.calculateNetworkConsensus verifs ∧
    TrustEngine.calculateNetworkConsensus verifs ≤ 1 := by
  unfold TrustEngine.calculateNetworkConsensus
  dsimp only
  split
  · norm_num
  · have hsw : 0 ≤ sumQ ((verifs.filter (fun v => v.voteType == "support")).map effVoteWeight) := by
      refine sumQ_nonneg _ ?_
      intro x hx
      obtain ⟨v, hv, rfl⟩ := List.mem_map.mp hx
      exact effVoteWeight_nonneg v (hw v (List.mem_of_mem_filter hv))
    have hdw : 0 ≤ sumQ ((verifs.filter (fun v => v.voteType == "dispute")).map effVoteWeight) := by
      refine sumQ_nonneg _ ?_
      intro x hx
      obtain ⟨v, hv, rfl⟩ := List.mem_map.mp hx
      exact effVoteWeight_nonneg v (hw v (List.mem_of_mem_filter hv))
    split
    · norm_num
    · rename_i htot
      have htpos : 0 < sumQ ((verifs.filter (fun v => v.voteType == "support")).map effVoteWeight)
          + sumQ ((verifs.filter (fun v => v.voteType == "dispute")).map effVoteWeight) :=
        lt_of_le_of_ne (by linarith) (Ne.symm htot)
      have hpen := detectSuspiciousPatterns_bounds verifs
      have hfrac : 0 ≤ sumQ ((verifs.filter (fun v => v.voteType == "support")).map effVoteWeight)
          / (sumQ ((verifs.filter (fun v => v.voteType == "support")).map effVoteWeight)
            + sumQ ((verifs.filter (fun v => v.voteType == "dispute")).map effVoteWeight)) ∧
          sumQ ((verifs.filter (fun v => v.voteType == "support")).map effVoteWeight)
          / (sumQ ((verifs.filter (fun v => v.voteType == "support")).map effVoteWeight)
            + sumQ ((verifs.filter (fun v => v.voteType == "dispute")).map effVoteWeight)) ≤ 1 := by
        constructor
        · positivity
        · rw [div_le_one htpos]
          linarith
      constructor
      · exact mul_nonneg hfrac.1 (by linarith [hpen.2])
      · exact mul_le_one₀ hfrac.2 (by linarith [hpen.2]) (by linarith [hpen.1])

/-- Claim C5: for valid inputs (exponential kept abstract but bounded as the
real exponential is on nonpositive arguments, evidence quality nonnegative,
timestamps not in the future, vote weights nonnegative), the final trust
score is an integer in [0, 100] and each of the five components V, C, T, S,
N lies in [0, 1]. -/
theorem trustScore_bounds (expf : ℚ → ℚ) (now : ℚ) (s : St) (rumor : Rumor)
    (hexp : ∀ x : ℚ, x ≤ 0 → 0 ≤ expf x ∧ expf x ≤ 1)
    (hev : ∀ e ∈ Store.getEvidenceForRumor s rumor.id,
      0 ≤ e.qualityScore ∧ e.createdAt ≤ now)
    (hvw : ∀ v ∈ Store.getVerificationsForRumor s rumor.id,
      0 ≤ v.voteWeight ∧ v.createdAt ≤ now)
    (hr : rumor.createdAt ≤ now) :
    (0 ≤ (TrustEngine.calculateTrustScore expf now s rumor).final ∧
      (TrustEngine.calculateTrustScore expf now s rumor).final ≤ 100) ∧
    (0 ≤ (TrustEngine.calculateTrustScore expf now s rumor).V ∧
      (TrustEngine.calculateTrustScore expf now s rumor).V ≤ 1) ∧
    (0 ≤ (TrustEngine.calculateTrustScore expf now s rumor).C ∧
      (TrustEngine.calculateTrustScore expf now s rumor).C ≤ 1) ∧
    (0 ≤ (TrustEngine.calculateTrustScore expf now s rumor).T ∧
      (TrustEngine.calculateTrustScore expf now s rumor).T ≤ 1) ∧
    (0 ≤ (TrustEngine.calculateTrustScore expf now s rumor).S ∧
      (TrustEngine.calculateTrustScore expf now s rumor).S ≤ 1) ∧
    (0 ≤ (TrustEngine.calculateTrustScore expf now s rumor).N ∧
      (TrustEngine.calculateTrustScore expf now s rumor).N ≤ 1) := by
  have hVe : (TrustEngine.calculateTrustScore expf now s rumor).V
      = TrustEngine.calculateVeracity expf now (Store.getEvidenceForRumor s rumor.id)
        (Store.getVerificationsForRumor s rumor.id) := rfl
  have hCe : (TrustEngine.calculateTrustScore expf now s rumor).C
      = TrustEngine.calculateConfidence expf now (Store.getEvidenceForRumor s rumor.id)
        (Store.getVerificationsForRumor s rumor.id) := rfl
  have hTe : (TrustEngine.calculateTrustScore expf now s rumor).T
      = TrustEngine.calculateTemporalRelevance expf now rumor := rfl
  have hSe : (TrustEngine.calculateTrustScore expf now s rumor).S
      = TrustEngine.calculateSourceReliability
          (some (TrustEngine.getSubmitterInfo s rumor.submitterId)) := rfl
  have hNe : (TrustEngine.calculateTrustScore expf now s rumor).N
      = TrustEngine.calculateNetworkConsensus
          (Store.getVerificationsForRumor s rumor.id) := rfl
  refine ⟨?_, ?_, ?_, ?_, ?_, ?_⟩
  · constructor
    · exact le_max_left 0 _
    · exact max_le (by norm_num) (min_le_left _ _)
  · rw [hVe]
    exact calculateVeracity_bounds expf now _ _ hexp hev
  · rw [hCe]
    exact calculateConfidence_bounds expf now _ _ hexp (fun v hv => (hvw v hv).2)
  · rw [hTe]
    exact calculateTemporalRelevance_bounds expf now rumor hexp hr
  · rw [hSe]
    exact calculateSourceReliability_bounds _
  · rw [hNe]
    exact calculateNetworkConsensus_bounds _ (fun v hv => (hvw v hv).1)

/-- Witness rumor for claim C5. -/
def c5Rumor : Rumor :=
  { id := "r5", submitterId := "u1", category := "academic", stakeAmount := 10,
    veracityScore := 1/2, confidenceScore := 3/10, temporalRelevance := 1,
    sourceReliability := 1/2, networkConsensus := 1/2, finalTrustScore := 50,
    supportCount := 1, disputeCount := 1, resolved := false, createdAt := 0,
    status := "active" }

/-- Witness state for claim C5: one documentary evidence item and two votes. -/
def c5St : St :=
  { user :=
      { id := "u1", tokenBalance := 100, stakedTokens := 0, totalSubmissions := 3,
        verifiedAccurate := 1, verifiedFalse := 1, reputationScore := 1,
        lastActive := 0, actionTimestamps := [] },
    rumors := [c5Rumor],
    evidence := [{ rumorId := "r5", type := "documentary", qualityScore := 1,
                   createdAt := 1000 }],
    verifications :=
      [ { rumorId := "r5", verifierId := "a", voteType := "support",
          stakeAmount := 4, voteWeight := 1, createdAt := 2000 },
        { rumorId := "r5", verifierId := "b", voteType := "dispute",
          stakeAmount := 5, voteWeight := 2, createdAt := 3000 } ] }

/-- Witness for claim C5 at a concrete state and a concrete bounded
exponential stand-in. -/
theorem trustScore_bounds_witness :
    (0 ≤ (TrustEngine.calculateTrustScore (fun _ => 1/2) 3600000 c5St c5Rumor).final ∧
      (TrustEngine.calculateTrustScore (fun _ => 1/2) 3600000 c5St c5Rumor).final ≤ 100) ∧
    (0 ≤ (TrustEngine.calculateTrustScore (fun _ => 1/2) 3600000 c5St c5Rumor).V ∧
      (TrustEngine.calculateTrustScore (fun _ => 1/2) 3600000 c5St c5Rumor).V ≤ 1) ∧
    (0 ≤ (TrustEngine.calculateTrustScore (fun _ => 1/2) 3600000 c5St c5Rumor).C ∧
      (TrustEngine.calculateTrustScore (fun _ => 1/2) 3600000 c5St c5Rumor).C ≤ 1) ∧
    (0 ≤ (TrustEngine.calculateTrustScore (fun _ => 1/2) 3600000 c5St c5Rumor).T ∧
      (TrustEngine.calculateTrustScore (fun _ => 1/2) 3600000 c5St c5Rumor).T ≤ 1) ∧
    (0 ≤ (TrustEngine.calculateTrustScore (fun _ => 1/2) 3600000 c5St c5Rumor).S ∧
      (TrustEngine.calculateTrustScore (fun _ => 1/2) 3600000 c5St c5Rumor).S ≤ 1) ∧
    (0 ≤ (TrustEngine.calculateTrustScore (fun _ => 1/2) 3600000 c5St c5Rumor).N ∧
      (TrustEngine.calculateTrustScore (fun _ => 1/2) 3600000 c5St c5Rumor).N ≤ 1) :=
  trustScore_bounds (fun _ => 1/2) 3600000 c5St c5Rumor
    (fun x _ => ⟨by norm_num, by norm_num⟩)
    (by decide) (by decide) (by decide)
